import Mathlib

/-!
Verification of the open-lovable sandbox-provider core.

This file gives a shallow embedding of the sandbox provider abstraction and
lifecycle manager of the repository:

* `DaytonaProvider`        (src/unnamed/part_000)
* `VercelProvider`         (src/unnamed/part_001, second copy; the first copy
                            agrees on everything formalised here except where
                            noted in comments)
* `ComputeProvider`        (src/lib/sandbox/providers/compute-provider.ts;
                            src/unnamed/part_002 is an earlier copy whose
                            fragments relevant here are identical)
* `SandboxManager`         (src/unnamed/part_003)

Conventions of the embedding:

* A JavaScript `Promise` that either resolves or rejects is modelled as
  `Except JsErr α`; a thrown `Error` is `JsErr` carrying its optional
  `message`.
* The remote backend (`this.sandbox.runCommand`, `filesystem.*`, `destroy`,
  `getUrl`) is not part of the repository; each operation therefore takes the
  backend's response(s) as explicit arguments (an oracle).  A raw response of
  the SDK's `runCommand` is `RawExecResult` with optional fields, mirroring
  the defensive `result.stdout || ''` style of the source.
* Remote file contents are modelled as byte lists (`FileData`), so that the
  shell/base64 transport pipelines of `writeFile` can be modelled faithfully
  (a JS string is transmitted as its UTF-8 bytes).
* Wall-clock times (`Date.now()`, `new Date()`) are explicit `Nat` arguments.
-/

/-- JS falsy-or for strings: `a || b` where `a` may be `undefined`/`null`
and the empty string is falsy. -/
def jsOrString (a : Option String) (b : String) : String :=
  match a with
  | none => b
  | some s => if s = "" then b else s

/-- JS truthiness of a possibly-absent string (empty string is falsy). -/
def jsStrTruthy : Option String → Bool
  | none => false
  | some s => s ≠ ""

/-- A thrown JS `Error`: we only track its `message`. -/
structure JsErr where
  message : Option String
deriving Repr, DecidableEq

/-- `new Error('No active sandbox')`, thrown by every provider operation
invoked without a live session. -/
def noActiveSandboxErr : JsErr := ⟨some "No active sandbox"⟩

/-- Raw result of the compute SDK's `runCommand` as the providers consume it:
every field is treated as possibly absent. -/
structure RawExecResult where
  stdout : Option String
  stderr : Option String
  exitCode : Option Int
deriving Repr, DecidableEq

/-- The provider contract's `CommandResult` (src/lib/sandbox/types, as used by
all providers). -/
structure CommandResult where
  stdout : String
  stderr : String
  exitCode : Int
  success : Bool
deriving Repr, DecidableEq

/-- A backend `runCommand` call either resolves with a raw result or rejects. -/
inductive BackendResp where
  | ok (r : RawExecResult)
  | err (e : JsErr)
deriving Repr, DecidableEq

/-- `SandboxInfo` of the provider contract. -/
structure SandboxInfo where
  sandboxId : String
  url : String
  provider : String
  createdAt : Nat
deriving Repr, DecidableEq

/-! ## SandboxManager (src/unnamed/part_003)

The registry is a JS `Map` from sandbox id to an entry; we model it as an
association list with `Map.set` semantics (overwrite in place, else append).
Providers themselves are opaque handles (a type parameter `P`). -/

/-- A registry entry (`SandboxInfo` interface local to the manager file). -/
structure MgrEntry (P : Type) where
  sandboxId : String
  provider : P
  createdAt : Nat
  lastAccessed : Nat
deriving Repr, DecidableEq

/-- `Map.get` on the association-list model. -/
def mapGet {α : Type} (m : List (String × α)) (k : String) : Option α :=
  (m.find? (fun kv => kv.1 == k)).map (fun kv => kv.2)

/-- `Map.set` on the association-list model: overwrite in place if present,
otherwise append. -/
def mapSet {α : Type} (m : List (String × α)) (k : String) (v : α) :
    List (String × α) :=
  if m.any (fun kv => kv.1 == k) then
    m.map (fun kv => if kv.1 == k then (k, v) else kv)
  else
    m ++ [(k, v)]

/-- `entry.lastAccessed = new Date()` on one entry. -/
def touchEntry {P : Type} (e : MgrEntry P) (now : Nat) : MgrEntry P :=
  ⟨e.sandboxId, e.provider, e.createdAt, now⟩

/-- In-place mutation `entry.lastAccessed = new Date()` of the entry at `k`. -/
def mapTouch {P : Type} (m : List (String × MgrEntry P)) (k : String)
    (now : Nat) : List (String × MgrEntry P) :=
  m.map (fun kv =>
    if kv.1 == k then (kv.1, touchEntry kv.2 now) else kv)

/-- State of a `SandboxManager` instance. -/
structure ManagerState (P : Type) where
  sandboxes : List (String × MgrEntry P)
  activeSandboxId : Option String
deriving Repr, DecidableEq

/-- Remote side effects a manager operation can issue. -/
inductive MgrEffect (P : Type) where
  | terminateProvider (p : P)
deriving Repr, DecidableEq

/-- `SandboxManager.registerSandbox(sandboxId, provider)`: overwrite the map
entry with fresh `createdAt`/`lastAccessed` and mark the id active.  The body
issues no remote call, hence the (always empty) effect list in the result. -/
def registerSandbox {P : Type} (st : ManagerState P) (sandboxId : String)
    (provider : P) (now : Nat) : List (MgrEffect P) × ManagerState P :=
  ([],
   { sandboxes := mapSet st.sandboxes sandboxId
       ⟨sandboxId, provider, now, now⟩,
     activeSandboxId := some sandboxId })

/-- `SandboxManager.getActiveProvider()`: null without an active id or with a
stale one; otherwise touch `lastAccessed` and return the provider. -/
def getActiveProvider {P : Type} (st : ManagerState P) (now : Nat) :
    Option P × ManagerState P :=
  match st.activeSandboxId with
  | none => (none, st)
  | some id =>
    match mapGet st.sandboxes id with
    | some entry =>
        (some entry.provider,
         { st with sandboxes := mapTouch st.sandboxes id now })
    | none => (none, st)

/-- `SandboxManager.getProvider(sandboxId)`: direct lookup, touching
`lastAccessed`; null if absent. -/
def getProvider {P : Type} (st : ManagerState P) (sandboxId : String)
    (now : Nat) : Option P × ManagerState P :=
  match mapGet st.sandboxes sandboxId with
  | some entry =>
      (some entry.provider,
       { st with sandboxes := mapTouch st.sandboxes sandboxId now })
  | none => (none, st)

/-- Outcome of one provider's `terminate()` promise, supplied as an oracle:
`fails p = true` means `p.terminate()` rejects. -/
def providerTerminateOutcome {P : Type} (fails : P → Bool) (p : P) :
    Except JsErr Unit :=
  if fails p then .error ⟨some "terminate failed"⟩ else .ok ()

/-- `SandboxManager.terminateAll()`: one `terminate()` per registered entry,
each with its own `.catch` (so a rejection is logged and swallowed), then
`clear()` the map and null the active pointer.  Returns the attempted
terminations, the settled per-provider outcomes after `.catch`, and the new
state. -/
def terminateAll {P : Type} (st : ManagerState P) (fails : P → Bool) :
    List (MgrEffect P) × List (Except JsErr Unit) × ManagerState P :=
  let attempts := st.sandboxes.map
    (fun kv => MgrEffect.terminateProvider kv.2.provider)
  let settled := st.sandboxes.map
    (fun kv =>
      -- `.catch(err => console.error(...))` resolves the promise with the
      -- (ignored) log result, so every settled outcome is `ok`.
      match providerTerminateOutcome fails kv.2.provider with
      | .ok _ => Except.ok ()
      | .error _ => Except.ok ())
  (attempts, settled,
   { sandboxes := [], activeSandboxId := none })

/-- `SandboxManager.terminateSandbox(sandboxId)`: best-effort terminate of the
entry's provider (rejection swallowed), unconditional removal, and clearing of
the active pointer when it pointed at `sandboxId`. -/
def terminateSandbox {P : Type} (st : ManagerState P) (sandboxId : String)
    (fails : P → Bool) : List (MgrEffect P) × ManagerState P :=
  match mapGet st.sandboxes sandboxId with
  | some entry =>
    let _settled : Except JsErr Unit :=
      match providerTerminateOutcome fails entry.provider with
      | .ok _ => .ok ()
      | .error _ => .ok ()   -- try/catch: the error is logged, not re-thrown
    ([MgrEffect.terminateProvider entry.provider],
     { sandboxes := st.sandboxes.filter (fun kv => ¬ kv.1 = sandboxId),
       activeSandboxId :=
         if st.activeSandboxId = some sandboxId then none
         else st.activeSandboxId })
  | none => ([], st)

/-! Association-list lemmas for the `Map` model. -/

theorem find?_map_overwrite {α : Type} (m : List (String × α))
    (k k' : String) (v : α) (hne : k' ≠ k) :
    (m.map (fun kv => if kv.1 == k then (k, v) else kv)).find?
        (fun kv => kv.1 == k')
      = m.find? (fun kv => kv.1 == k') := by
  induction m with
  | nil => rfl
  | cons kv rest ih =>
    rw [List.map_cons]
    by_cases hk : kv.1 = k
    · have hL : (if kv.1 == k then (k, v) else kv) = (k, v) := by simp [hk]
      rw [hL, List.find?_cons, List.find?_cons]
      have hkk' : (((k, v) : String × α).1 == k') = false := by
        simp only [beq_eq_false_iff_ne]
        exact fun hc => hne hc.symm
      have hkv : (kv.1 == k') = false := by
        simp only [beq_eq_false_iff_ne, hk]
        exact fun hc => hne hc.symm
      simp only [hkk', hkv]
      exact ih
    · have hL : (if kv.1 == k then (k, v) else kv) = kv := by simp [hk]
      rw [hL, List.find?_cons, List.find?_cons]
      cases hkv : (kv.1 == k') with
      | true => simp only [hkv]
      | false =>
        simp only [hkv]
        exact ih

theorem find?_map_overwrite_self {α : Type} (m : List (String × α))
    (k : String) (v : α) (hmem : m.any (fun kv => kv.1 == k) = true) :
    (m.map (fun kv => if kv.1 == k then (k, v) else kv)).find?
        (fun kv => kv.1 == k)
      = some (k, v) := by
  induction m with
  | nil => cases hmem
  | cons kv rest ih =>
    rw [List.map_cons]
    by_cases hk : kv.1 = k
    · have hL : (if kv.1 == k then (k, v) else kv) = (k, v) := by simp [hk]
      rw [hL, List.find?_cons]
      have hself : (((k, v) : String × α).1 == k) = true := by simp
      simp only [hself]
    · have hL : (if kv.1 == k then (k, v) else kv) = kv := by simp [hk]
      rw [hL, List.find?_cons]
      have hkv : (kv.1 == k) = false := by simp [hk]
      simp only [hkv]
      apply ih
      simp only [List.any_cons, Bool.or_eq_true] at hmem
      rcases hmem with hmem | hmem
      · exact absurd (by simpa using hmem) hk
      · exact hmem

theorem mapGet_mapSet_self {α : Type} (m : List (String × α)) (k : String)
    (v : α) : mapGet (mapSet m k v) k = some v := by
  unfold mapSet
  by_cases h : m.any (fun kv => kv.1 == k)
  · rw [if_pos h]
    unfold mapGet
    rw [find?_map_overwrite_self m k v h]
    rfl
  · rw [if_neg h]
    unfold mapGet
    rw [List.find?_append]
    have hnone : m.find? (fun kv => kv.1 == k) = none := by
      rw [List.find?_eq_none]
      intro x hx hpx
      have hall : ∀ x ∈ m, ¬ (x.1 == k) = true := by
        intro y hy hpy
        exact h (List.any_eq_true.mpr ⟨y, hy, hpy⟩)
      exact hall x hx hpx
    rw [hnone]
    have hsing : ([(k, v)] : List (String × α)).find? (fun kv => kv.1 == k)
        = some (k, v) := by
      rw [List.find?_cons]
      have hself : (((k, v) : String × α).1 == k) = true := by simp
      simp only [hself]
    rw [hsing]
    rfl

theorem mapGet_mapSet_other {α : Type} (m : List (String × α)) (k k' : String)
    (v : α) (hne : k' ≠ k) : mapGet (mapSet m k v) k' = mapGet m k' := by
  unfold mapSet
  by_cases h : m.any (fun kv => kv.1 == k)
  · rw [if_pos h]
    unfold mapGet
    rw [find?_map_overwrite m k k' v hne]
  · rw [if_neg h]
    unfold mapGet
    rw [List.find?_append]
    have hsing : ([(k, v)] : List (String × α)).find? (fun kv => kv.1 == k')
        = none := by
      rw [List.find?_cons]
      have : (((k, v) : String × α).1 == k') = false := by
        simp only [beq_eq_false_iff_ne]
        exact fun hc => hne hc.symm
      simp only [this]
      rfl
    rw [hsing, Option.or_none]

theorem mapGet_mapTouch_self {P : Type} (m : List (String × MgrEntry P))
    (k : String) (now : Nat) :
    mapGet (mapTouch m k now) k
      = (mapGet m k).map (fun e => touchEntry e now) := by
  induction m with
  | nil => rfl
  | cons kv rest ih =>
    unfold mapTouch at *
    rw [List.map_cons]
    by_cases hk : kv.1 = k
    · have hL : (if kv.1 == k then (kv.1, touchEntry kv.2 now) else kv)
          = (kv.1, touchEntry kv.2 now) := by simp [hk]
      rw [hL]
      unfold mapGet
      rw [List.find?_cons, List.find?_cons]
      have h1 : (((kv.1, touchEntry kv.2 now) : String × MgrEntry P).1 == k)
          = true := by simp [hk]
      have h2 : (kv.1 == k) = true := by simp [hk]
      simp only [h1, h2]
      rfl
    · have hL : (if kv.1 == k then (kv.1, touchEntry kv.2 now) else kv)
          = kv := by simp [hk]
      rw [hL]
      unfold mapGet at *
      rw [List.find?_cons, List.find?_cons]
      have h2 : (kv.1 == k) = false := by simp [hk]
      simp only [h2]
      exact ih

theorem mapGet_mapTouch_other {P : Type} (m : List (String × MgrEntry P))
    (k k' : String) (now : Nat) (hne : k' ≠ k) :
    mapGet (mapTouch m k now) k' = mapGet m k' := by
  induction m with
  | nil => rfl
  | cons kv rest ih =>
    unfold mapTouch at *
    rw [List.map_cons]
    by_cases hk : kv.1 = k
    · have hL : (if kv.1 == k then (kv.1, touchEntry kv.2 now) else kv)
          = (kv.1, touchEntry kv.2 now) := by simp [hk]
      rw [hL]
      unfold mapGet at *
      rw [List.find?_cons, List.find?_cons]
      have h1 : (((kv.1, touchEntry kv.2 now) : String × MgrEntry P).1 == k')
          = false := by
        simp only [beq_eq_false_iff_ne, ne_eq]
        show ¬ kv.1 = k'
        rw [hk]
        exact fun hc => hne hc.symm
      have h2 : (kv.1 == k') = false := by
        simp only [beq_eq_false_iff_ne, ne_eq, hk]
        exact fun hc => hne hc.symm
      simp only [h1, h2]
      exact ih
    · have hL : (if kv.1 == k then (kv.1, touchEntry kv.2 now) else kv)
          = kv := by simp [hk]
      rw [hL]
      unfold mapGet at *
      rw [List.find?_cons, List.find?_cons]
      cases h2 : (kv.1 == k') with
      | true => simp only [h2]
      | false =>
        simp only [h2]
        exact ih

/-! ## Manager theorems -/

/-- C7: `registerSandbox(id, provider)` inserts or overwrites the registry
entry for `id`, sets its `lastAccessed` to the current time, and makes `id`
the active session; after `registerSandbox("a", pA)` then
`registerSandbox("b", pB)`, `getActiveProvider()` returns `pB` while
`getProvider("a")` still returns `pA` (the earlier entry is not evicted), and
both lookups touch the entry's `lastAccessed`. -/
theorem c7_register_then_lookup {P : Type} (st0 : ManagerState P)
    (pA pB : P) (t1 t2 t3 t4 : Nat) :
    mapGet ((registerSandbox st0 "a" pA t1).2).sandboxes "a"
        = some ⟨"a", pA, t1, t1⟩ ∧
    ((registerSandbox st0 "a" pA t1).2).activeSandboxId = some "a" ∧
    mapGet ((registerSandbox (registerSandbox st0 "a" pA t1).2 "b" pB
        t2).2).sandboxes "b" = some ⟨"b", pB, t2, t2⟩ ∧
    ((registerSandbox (registerSandbox st0 "a" pA t1).2 "b" pB
        t2).2).activeSandboxId = some "b" ∧
    (getActiveProvider (registerSandbox (registerSandbox st0 "a" pA t1).2 "b"
        pB t2).2 t3).1 = some pB ∧
    mapGet ((getActiveProvider (registerSandbox (registerSandbox st0 "a" pA
        t1).2 "b" pB t2).2 t3).2).sandboxes "b" = some ⟨"b", pB, t2, t3⟩ ∧
    (getProvider (registerSandbox (registerSandbox st0 "a" pA t1).2 "b" pB
        t2).2 "a" t4).1 = some pA ∧
    mapGet ((getProvider (registerSandbox (registerSandbox st0 "a" pA t1).2
        "b" pB t2).2 "a" t4).2).sandboxes "a" = some ⟨"a", pA, t1, t4⟩ := by
  have hab : ("a" : String) ≠ "b" := by decide
  have hba : ("b" : String) ≠ "a" := by decide
  have h1 : mapGet ((registerSandbox st0 "a" pA t1).2).sandboxes "a"
      = some ⟨"a", pA, t1, t1⟩ := by
    simp only [registerSandbox]
    exact mapGet_mapSet_self _ _ _
  have h2 : mapGet ((registerSandbox (registerSandbox st0 "a" pA t1).2 "b" pB
      t2).2).sandboxes "b" = some ⟨"b", pB, t2, t2⟩ := by
    simp only [registerSandbox]
    exact mapGet_mapSet_self _ _ _
  have h3 : mapGet ((registerSandbox (registerSandbox st0 "a" pA t1).2 "b" pB
      t2).2).sandboxes "a" = some ⟨"a", pA, t1, t1⟩ := by
    simp only [registerSandbox]
    rw [mapGet_mapSet_other _ _ _ _ hab]
    exact mapGet_mapSet_self _ _ _
  have ha2 : ((registerSandbox (registerSandbox st0 "a" pA t1).2 "b" pB
      t2).2).activeSandboxId = some "b" := rfl
  refine ⟨h1, rfl, h2, rfl, ?_, ?_, ?_, ?_⟩
  · simp only [getActiveProvider, ha2, h2]
  · simp only [getActiveProvider, ha2, h2]
    rw [mapGet_mapTouch_self, h2]
    rfl
  · simp only [getProvider, h3]
  · simp only [getProvider, h3]
    rw [mapGet_mapTouch_self, h3]
    rfl

/-- C8 counterexample: with provider 1 registered under "a", re-registering
"a" with provider 2 issues NO terminate effect for the displaced provider 1 —
it is silently dropped from the registry (the entry is overwritten). The
claim asserts a remote destroy is issued for the displaced provider. -/
theorem c8_counterexample_no_destroy_on_overwrite :
    (registerSandbox (P := Nat)
        ⟨[("a", ⟨"a", 1, 0, 0⟩)], some "a"⟩ "a" 2 5).1 = [] ∧
    MgrEffect.terminateProvider 1 ∉
      (registerSandbox (P := Nat)
        ⟨[("a", ⟨"a", 1, 0, 0⟩)], some "a"⟩ "a" 2 5).1 ∧
    mapGet (registerSandbox (P := Nat)
        ⟨[("a", ⟨"a", 1, 0, 0⟩)], some "a"⟩ "a" 2 5).2.sandboxes "a"
      = some ⟨"a", 2, 5, 5⟩ := by
  refine ⟨rfl, by simp [registerSandbox], ?_⟩
  simp [registerSandbox, mapGet, mapSet, List.find?]

/-- C8 amended: re-registering an id overwrites the entry (fresh provider and
timestamps) and marks it active, but `registerSandbox` performs no remote
call at all: the displaced provider is dropped from the registry without its
`terminate()`/destroy being issued (its remote resource is leaked). -/
theorem c8_register_overwrites_without_destroy {P : Type}
    (st : ManagerState P) (id : String) (p : P) (now : Nat) :
    (registerSandbox st id p now).1 = [] ∧
    mapGet (registerSandbox st id p now).2.sandboxes id
      = some ⟨id, p, now, now⟩ ∧
    (registerSandbox st id p now).2.activeSandboxId = some id := by
  refine ⟨rfl, ?_, rfl⟩
  simp only [registerSandbox]
  exact mapGet_mapSet_self _ _ _

/-- C9: `terminateAll()` issues a `terminate()` for every registered provider
independently (an individual failure does not prevent the others — every
settled outcome is `ok` after the per-promise `.catch`), and afterwards the
registry is empty and the active pointer is null, regardless of which
terminations failed. -/
theorem c9_terminateAll_clears_registry {P : Type} (st : ManagerState P)
    (fails : P → Bool) :
    (∀ kv ∈ st.sandboxes,
        MgrEffect.terminateProvider kv.2.provider ∈ (terminateAll st fails).1) ∧
    (∀ r ∈ (terminateAll st fails).2.1, r = Except.ok ()) ∧
    (terminateAll st fails).2.2.sandboxes = [] ∧
    (terminateAll st fails).2.2.activeSandboxId = none := by
  refine ⟨?_, ?_, rfl, rfl⟩
  · intro kv hkv
    exact List.mem_map_of_mem _ hkv
  · intro r hr
    simp only [terminateAll, List.mem_map] at hr
    obtain ⟨kv, _, heq⟩ := hr
    cases h : providerTerminateOutcome fails kv.2.provider with
    | ok u => rw [h] at heq; exact heq.symm
    | error e => rw [h] at heq; exact heq.symm

/-- Witness for C9 at a concrete registry in which one of the two
terminations fails: both providers still receive a terminate attempt and the
registry ends empty. -/
theorem c9_terminateAll_witness :
    MgrEffect.terminateProvider 1 ∈
      (terminateAll (P := Nat)
        ⟨[("a", ⟨"a", 1, 0, 0⟩), ("b", ⟨"b", 2, 0, 0⟩)], some "b"⟩
        (fun p => p = 1)).1 ∧
    MgrEffect.terminateProvider 2 ∈
      (terminateAll (P := Nat)
        ⟨[("a", ⟨"a", 1, 0, 0⟩), ("b", ⟨"b", 2, 0, 0⟩)], some "b"⟩
        (fun p => p = 1)).1 ∧
    (terminateAll (P := Nat)
        ⟨[("a", ⟨"a", 1, 0, 0⟩), ("b", ⟨"b", 2, 0, 0⟩)], some "b"⟩
        (fun p => p = 1)).2.2.sandboxes = [] := by
  refine ⟨?_, ?_, ?_⟩
  · exact (c9_terminateAll_clears_registry _ _).1 ("a", ⟨"a", 1, 0, 0⟩)
      (by simp)
  · exact (c9_terminateAll_clears_registry _ _).1 ("b", ⟨"b", 2, 0, 0⟩)
      (by simp)
  · exact (c9_terminateAll_clears_registry
      (P := Nat) ⟨[("a", ⟨"a", 1, 0, 0⟩), ("b", ⟨"b", 2, 0, 0⟩)], some "b"⟩
      (fun p => p = 1)).2.2.1

/-! ## Provider local state

Each provider instance holds a nullable SDK sandbox handle (modelled by its
id), a nullable `SandboxInfo`, and provider-specific extras.  `!this.sandbox`
guards every operation. -/

/-- `DaytonaProvider` instance state (src/unnamed/part_000). -/
structure DaytonaState where
  sandbox : Option String
  sandboxInfo : Option SandboxInfo
  workingDir : Option String
  existingFiles : List String
deriving Repr, DecidableEq

/-- `VercelProvider` instance state (src/unnamed/part_001). -/
structure VercelState where
  sandbox : Option String
  sandboxInfo : Option SandboxInfo
  existingFiles : List String
deriving Repr, DecidableEq

/-- `ComputeProvider` instance state
(src/lib/sandbox/providers/compute-provider.ts). -/
structure ComputeState where
  sandbox : Option String
  sandboxInfo : Option SandboxInfo
deriving Repr, DecidableEq

/-- `command.split(' ').filter(Boolean)` as used by the Daytona and Vercel
`runCommand` to derive `(cmd, args)`. -/
def splitCmd (command : String) : List String :=
  (command.split (fun c => c = ' ')).filter (fun s => s ≠ "")

/-- `DaytonaProvider.ensureWorkingDir()`: requires a live sandbox; returns the
cached directory if JS-truthy, else the configured
`appConfig.baseProviderConfig.daytona.workingDirectory` if truthy, else
throws.  (The caching write-back does not affect any property proved here and
is not threaded.) -/
def daytonaEnsureWorkingDir (st : DaytonaState) (cfgWd : Option String) :
    Except JsErr String :=
  if st.sandbox = none then .error noActiveSandboxErr
  else if jsStrTruthy st.workingDir then .ok (st.workingDir.getD "")
  else if jsStrTruthy cfgWd then .ok (cfgWd.getD "")
  else .error ⟨some ("[DaytonaProvider] Unable to determine working " ++
    "directory. appConfig.baseProviderConfig.daytona.workingDirectory " ++
    "is not set.")⟩

/-- `DaytonaProvider.runCommand(command)`: guard, split the command on
spaces, resolve the working directory, then run remotely.  The `try`/`catch`
converts a rejected backend call into a `CommandResult` with stdout `''`,
stderr `error?.message || 'Command failed'` and exit code `1`. -/
def daytonaRunCommand (st : DaytonaState) (cfgWd : Option String)
    (command : String) (resp : BackendResp) : Except JsErr CommandResult :=
  if st.sandbox = none then .error noActiveSandboxErr
  else
    let parts := splitCmd command
    let _cmd := parts.head?
    let _args := parts.tail
    match daytonaEnsureWorkingDir st cfgWd with
    | .error e => .error e
    | .ok _cwd =>
      match resp with
      | .ok r =>
          .ok ⟨jsOrString r.stdout "", jsOrString r.stderr "",
               r.exitCode.getD 0, r.exitCode == some 0⟩
      | .err e =>
          .ok ⟨"", jsOrString e.message "Command failed", 1, false⟩

/-- `VercelProvider.runCommand(command)` (both copies in part_001 agree):
guard, split on spaces, run with the configured working directory; the
`catch` converts a rejection into a synthetic `CommandResult` exactly as the
Daytona provider does. -/
def vercelRunCommand (st : VercelState) (command : String)
    (resp : BackendResp) : Except JsErr CommandResult :=
  if st.sandbox = none then .error noActiveSandboxErr
  else
    let parts := splitCmd command
    let _cmd := parts.head?
    let _args := parts.tail
    match resp with
    | .ok r =>
        .ok ⟨jsOrString r.stdout "", jsOrString r.stderr "",
             r.exitCode.getD 0, r.exitCode == some 0⟩
    | .err e =>
        .ok ⟨"", jsOrString e.message "Command failed", 1, false⟩

/-- `ComputeProvider.runCommand(command)`: guard, run remotely with NO
`try`/`catch` (a rejected backend promise propagates to the caller), coerce
`stdout`/`stderr` to strings, use the numeric exit code or `0`, and set
`success = (exitCode === 0)` on the coerced value. -/
def computeRunCommand (st : ComputeState) (command : String)
    (resp : BackendResp) : Except JsErr CommandResult :=
  if st.sandbox = none then .error noActiveSandboxErr
  else
    let _logged := command
    match resp with
    | .ok r =>
        let exitCode : Int :=
          match r.exitCode with
          | some n => n
          | none => 0
        .ok ⟨jsOrString r.stdout "", jsOrString r.stderr "",
             exitCode, exitCode == 0⟩
    | .err e => .error e

/-- `DaytonaProvider.terminate()`: if a sandbox exists, a best-effort remote
destroy (`destroyFails` gives the ignored outcome of that promise) and then
all local state is nulled; otherwise nothing happens.  Returns the ids whose
destroy was attempted. -/
def daytonaTerminate (st : DaytonaState) (destroyFails : Bool) :
    List String × DaytonaState :=
  match st.sandbox with
  | some id =>
    let _destroyOutcome : Except JsErr Unit :=
      if destroyFails then .error ⟨some "destroy failed"⟩ else .ok ()
    ([id], ⟨none, none, none, []⟩)
  | none => ([], st)

/-- `ComputeProvider.terminate()`: best-effort destroy when a sandbox exists,
then `this.sandbox = null; this.sandboxInfo = null` UNCONDITIONALLY. -/
def computeTerminate (st : ComputeState) (destroyFails : Bool) :
    List String × ComputeState :=
  match st.sandbox with
  | some id =>
    let _destroyOutcome : Except JsErr Unit :=
      if destroyFails then .error ⟨some "destroy failed"⟩ else .ok ()
    ([id], ⟨none, none⟩)
  | none => ([], ⟨none, none⟩)

/-- `VercelProvider.terminate()` (both copies): the destroy AND the nulling
of local state happen only under `if (this.sandbox && this.sandboxInfo?.sandboxId)`;
otherwise the method is a no-op. -/
def vercelTerminate (st : VercelState) (destroyFails : Bool) :
    List String × VercelState :=
  if st.sandbox.isSome && jsStrTruthy (st.sandboxInfo.map
      (fun i => i.sandboxId)) then
    let _destroyOutcome : Except JsErr Unit :=
      if destroyFails then .error ⟨some "destroy failed"⟩ else .ok ()
    ([(st.sandboxInfo.map (fun i => i.sandboxId)).getD ""],
     ⟨none, none, st.existingFiles⟩)
  else ([], st)

/-- `isAlive()`: `!!this.sandbox`, identical in all three providers. -/
def daytonaIsAlive (st : DaytonaState) : Bool := st.sandbox.isSome

/-- `VercelProvider.isAlive()`. -/
def vercelIsAlive (st : VercelState) : Bool := st.sandbox.isSome

/-- `ComputeProvider.isAlive()`. -/
def computeIsAlive (st : ComputeState) : Bool := st.sandbox.isSome

/-- `VercelProvider.createSandbox()` (part_001, second copy): destroy any
existing sandbox (errors logged; only `this.sandbox` is nulled), clear the
file tracking, create a new remote sandbox, fetch the preview URL, then
populate `sandboxInfo`.  A rejection of `create` or `getUrl` is re-thrown by
the `catch`, leaving the state as mutated so far — in particular a `getUrl`
failure leaves `sandbox` set and `sandboxInfo` null. -/
def vercelCreateSandbox (st : VercelState) (destroyFails : Bool)
    (createResp : Except JsErr String) (urlResp : Except JsErr String)
    (now : Nat) : Except JsErr SandboxInfo × VercelState :=
  let st1 : VercelState :=
    match st.sandbox with
    | some _ =>
      let _destroyOutcome : Except JsErr Unit :=
        if destroyFails then .error ⟨some "destroy failed"⟩ else .ok ()
      ⟨none, st.sandboxInfo, st.existingFiles⟩
    | none => st
  let st2 : VercelState := ⟨st1.sandbox, st1.sandboxInfo, []⟩
  match createResp with
  | .error e => (.error e, st2)
  | .ok sandboxId =>
    let st3 : VercelState := ⟨some sandboxId, st2.sandboxInfo, st2.existingFiles⟩
    match urlResp with
    | .error e => (.error e, st3)
    | .ok url =>
      let info : SandboxInfo := ⟨sandboxId, url, "vercel", now⟩
      (.ok info, ⟨st3.sandbox, some info, st3.existingFiles⟩)

/-! ## C1: runCommand error discipline -/

/-- C1 counterexample: with an active Daytona session, an infrastructure
failure (the backend `runCommand` promise rejects, e.g. a transport timeout)
does NOT propagate as a raised error — `DaytonaProvider.runCommand`'s `catch`
returns a `CommandResult` carrying the synthetic exit code `1`, contradicting
the claim that infrastructure failures are raised, never returned. -/
theorem c1_counterexample_daytona_synthetic_exit :
    daytonaRunCommand ⟨some "sb-1", none, some "/home/daytona", []⟩
        (some "/home/daytona") "npm install"
        (.err ⟨some "connect ETIMEDOUT"⟩)
      = .ok ⟨"", "connect ETIMEDOUT", 1, false⟩ := by
  rfl

/-- C1 amended: the compute provider behaves as claimed — a resolved remote
command (any exit code) is returned as a `CommandResult` with
`success = (exitCode == 0)` and never raised, while a rejected backend call
propagates as a raised error.  The Daytona and Vercel providers return
resolved results the same way (`success` tracks the remote exit code), but
they CATCH a rejected backend call and convert it into a `CommandResult` with
stdout `''`, stderr `error?.message || 'Command failed'`, exit code `1` and
`success = false` instead of raising it. -/
theorem c1_runCommand_error_discipline :
    (∀ (st : ComputeState) (cmd : String) (r : RawExecResult),
      st.sandbox ≠ none →
      ∃ res, computeRunCommand st cmd (.ok r) = .ok res ∧
        res.success = (res.exitCode == 0)) ∧
    (∀ (st : ComputeState) (cmd : String) (e : JsErr),
      st.sandbox ≠ none →
      computeRunCommand st cmd (.err e) = .error e) ∧
    (∀ (st : DaytonaState) (cfgWd : Option String) (cmd : String)
      (r : RawExecResult) (w : String),
      st.sandbox ≠ none → daytonaEnsureWorkingDir st cfgWd = .ok w →
      daytonaRunCommand st cfgWd cmd (.ok r)
        = .ok ⟨jsOrString r.stdout "", jsOrString r.stderr "",
               r.exitCode.getD 0, r.exitCode == some 0⟩) ∧
    (∀ (st : DaytonaState) (cfgWd : Option String) (cmd : String) (e : JsErr)
      (w : String),
      st.sandbox ≠ none → daytonaEnsureWorkingDir st cfgWd = .ok w →
      daytonaRunCommand st cfgWd cmd (.err e)
        = .ok ⟨"", jsOrString e.message "Command failed", 1, false⟩) ∧
    (∀ (st : VercelState) (cmd : String) (e : JsErr),
      st.sandbox ≠ none →
      vercelRunCommand st cmd (.err e)
        = .ok ⟨"", jsOrString e.message "Command failed", 1, false⟩) := by
  refine ⟨?_, ?_, ?_, ?_, ?_⟩
  · intro st cmd r h
    unfold computeRunCommand
    rw [if_neg h]
    exact ⟨_, rfl, rfl⟩
  · intro st cmd e h
    unfold computeRunCommand
    rw [if_neg h]
  · intro st cfgWd cmd r w h hw
    unfold daytonaRunCommand
    rw [if_neg h, hw]
  · intro st cfgWd cmd e w h hw
    unfold daytonaRunCommand
    rw [if_neg h, hw]
  · intro st cmd e h
    unfold vercelRunCommand
    rw [if_neg h]

/-- Witness for C1 (amended) at concrete states: each clause instantiated
with a live session, a concrete command and concrete backend responses. -/
theorem c1_runCommand_error_discipline_witness :
    (∃ res, computeRunCommand ⟨some "sb", none⟩ "ls" (.ok ⟨some "a", none,
        some 2⟩) = .ok res ∧ res.success = (res.exitCode == 0)) ∧
    computeRunCommand ⟨some "sb", none⟩ "ls" (.err ⟨some "timeout"⟩)
      = .error ⟨some "timeout"⟩ ∧
    daytonaRunCommand ⟨some "sb", none, some "/w", []⟩ (some "/w") "ls"
        (.ok ⟨some "a", none, some 2⟩)
      = .ok ⟨"a", "", 2, false⟩ ∧
    daytonaRunCommand ⟨some "sb", none, some "/w", []⟩ (some "/w") "ls"
        (.err ⟨none⟩)
      = .ok ⟨"", "Command failed", 1, false⟩ ∧
    vercelRunCommand ⟨some "sb", none, []⟩ "ls" (.err ⟨some "boom"⟩)
      = .ok ⟨"", "boom", 1, false⟩ := by
  obtain ⟨hc1, hc2, hd1, hd2, hv⟩ := c1_runCommand_error_discipline
  refine ⟨hc1 ⟨some "sb", none⟩ "ls" ⟨some "a", none, some 2⟩ (by simp),
          hc2 ⟨some "sb", none⟩ "ls" ⟨some "timeout"⟩ (by simp), ?_, ?_, ?_⟩
  · have := hd1 ⟨some "sb", none, some "/w", []⟩ (some "/w") "ls"
      ⟨some "a", none, some 2⟩ "/w" (by simp) (by rfl)
    simpa [jsOrString] using this
  · have := hd2 ⟨some "sb", none, some "/w", []⟩ (some "/w") "ls" ⟨none⟩ "/w"
      (by simp) (by rfl)
    simpa [jsOrString] using this
  · have := hv ⟨some "sb", none, []⟩ "ls" ⟨some "boom"⟩ (by simp)
    simpa [jsOrString] using this

/-! ## C3: terminate idempotence -/

/-- C3 counterexample: a Vercel provider whose `createSandbox` allocated the
remote session (`create` resolved with id "sb-1") but whose `getUrl` call
rejected is left with `sandbox` set and `sandboxInfo` null; on that state
`terminate()` is a no-op (its guard requires `this.sandboxInfo?.sandboxId`),
so after `terminate()` — and after a second `terminate()` — `isAlive()` is
still `true`, contradicting the claim that any `terminate()` call leaves
`isAlive() == false`. -/
theorem c3_counterexample_vercel_terminate_noop :
    (vercelCreateSandbox ⟨none, none, []⟩ false (.ok "sb-1")
        (.error ⟨some "getUrl failed"⟩) 0).2 = ⟨some "sb-1", none, []⟩ ∧
    vercelTerminate ⟨some "sb-1", none, []⟩ false
      = ([], ⟨some "sb-1", none, []⟩) ∧
    vercelIsAlive ⟨some "sb-1", none, []⟩ = true ∧
    vercelIsAlive (vercelTerminate
        (vercelTerminate ⟨some "sb-1", none, []⟩ false).2 false).2 = true := by
  refine ⟨rfl, rfl, rfl, rfl⟩

/-- C3 amended: for the Daytona and compute providers `terminate()` is
idempotent and unconditional exactly as claimed — a destroy attempt is issued
when a session exists, local state is nulled regardless of the destroy
outcome, `isAlive()` is `false` after any call, and a repeated call changes
nothing.  For the Vercel provider the same holds only when the state is not
partially created, i.e. whenever `sandbox` is null or `sandboxInfo` carries a
non-empty `sandboxId`; in the partially-created state its `terminate()` is a
no-op (see the counterexample). -/
theorem c3_terminate_idempotent :
    (∀ (st : DaytonaState) (f f' : Bool),
      daytonaIsAlive (daytonaTerminate st f).2 = false ∧
      daytonaTerminate (daytonaTerminate st f).2 f'
        = ([], (daytonaTerminate st f).2)) ∧
    (∀ (id : String) (info : Option SandboxInfo) (wd : Option String)
      (files : List String) (f : Bool),
      (daytonaTerminate ⟨some id, info, wd, files⟩ f).1 = [id]) ∧
    (∀ (st : ComputeState) (f f' : Bool),
      computeIsAlive (computeTerminate st f).2 = false ∧
      computeTerminate (computeTerminate st f).2 f'
        = ([], (computeTerminate st f).2)) ∧
    (∀ (st : VercelState) (f f' : Bool),
      (st.sandbox = none ∨
        jsStrTruthy (st.sandboxInfo.map (fun i => i.sandboxId)) = true) →
      vercelIsAlive (vercelTerminate st f).2 = false ∧
      vercelTerminate (vercelTerminate st f).2 f'
        = ([], (vercelTerminate st f).2)) := by
  refine ⟨?_, ?_, ?_, ?_⟩
  · intro st f f'
    constructor
    · cases h : st.sandbox <;> simp [daytonaTerminate, daytonaIsAlive, h]
    · cases h : st.sandbox <;> simp [daytonaTerminate, h]
  · intro id info wd files f
    rfl
  · intro st f f'
    constructor
    · cases h : st.sandbox <;> simp [computeTerminate, computeIsAlive, h]
    · cases h : st.sandbox <;> simp [computeTerminate, h]
  · intro st f f' hok
    rcases hok with h | h
    · constructor
      · simp [vercelTerminate, vercelIsAlive, h]
      · simp [vercelTerminate, h]
    · cases hs : st.sandbox with
      | none =>
        constructor
        · simp [vercelTerminate, vercelIsAlive, hs]
        · simp [vercelTerminate, hs]
      | some id =>
        constructor
        · simp [vercelTerminate, vercelIsAlive, hs, h]
        · simp [vercelTerminate, hs, h]

/-- Witness for C3 (amended) at concrete states, including a Vercel provider
with a fully-established session and a failing remote destroy. -/
theorem c3_terminate_idempotent_witness :
    daytonaIsAlive (daytonaTerminate ⟨some "d1", none, some "/w", ["a"]⟩
        true).2 = false ∧
    (daytonaTerminate ⟨some "d1", none, some "/w", ["a"]⟩ true).1 = ["d1"] ∧
    computeIsAlive (computeTerminate ⟨some "c1", none⟩ true).2 = false ∧
    vercelIsAlive (vercelTerminate
        ⟨some "v1", some ⟨"v1", "https://x.vercel.run", "vercel", 0⟩, []⟩
        true).2 = false ∧
    vercelTerminate (vercelTerminate
        ⟨some "v1", some ⟨"v1", "https://x.vercel.run", "vercel", 0⟩, []⟩
        true).2 false
      = ([], (vercelTerminate
          ⟨some "v1", some ⟨"v1", "https://x.vercel.run", "vercel", 0⟩, []⟩
          true).2) := by
  obtain ⟨hd, hd1, hc, hv⟩ := c3_terminate_idempotent
  refine ⟨(hd ⟨some "d1", none, some "/w", ["a"]⟩ true false).1,
          hd1 "d1" none (some "/w") ["a"] true,
          (hc ⟨some "c1", none⟩ true false).1, ?_, ?_⟩
  · exact (hv ⟨some "v1", some ⟨"v1", "https://x.vercel.run", "vercel", 0⟩, []⟩
      true false (Or.inr (by rfl))).1
  · exact (hv ⟨some "v1", some ⟨"v1", "https://x.vercel.run", "vercel", 0⟩, []⟩
      true false (Or.inr (by rfl))).2

/-! ## C6: ComputeProvider.getComputeStatus readiness polling -/

/-- `maxWaitMs` of the polling loop. -/
def computeMaxWaitMs : Nat := 10000

/-- `pollIntervalMs` of the polling loop. -/
def computePollIntervalMs : Nat := 500

/-- The status command polled by the loop. -/
def computeStatusCmd : String := "compute status"

/-- The one-shot remote installation command, carrying the pre-supplied
credential. -/
def installCmdFor (apiKey : String) : String :=
  "echo \x27n\x27 | curl -fsSL https://computesdk.com/install.sh | " ++
    "bash -s -- --api-key " ++ apiKey

/-- Outcome of the `while (Date.now() - startTime < maxWaitMs)` loop. -/
inductive PollLoopOutcome where
  | ready (pollsUsed : Nat)
  | exhausted (last : Option RawExecResult) (pollsUsed : Nat)
  | traceTooShort
deriving Repr, DecidableEq

/-- The polling loop of `getComputeStatus`: while the elapsed time is below
the ceiling, run one status poll (its result and own duration come from the
oracle `trace`); exit code `0` returns immediately, otherwise sleep the fixed
interval and retry.  `last` is the last stored status, `used` the number of
polls issued so far.  `traceTooShort` is a model artifact for oracles shorter
than the loop demands. -/
def statusPollLoop : List (RawExecResult × Nat) → Nat → Option RawExecResult →
    Nat → PollLoopOutcome
  | [], elapsed, last, used =>
    if elapsed < computeMaxWaitMs then .traceTooShort
    else .exhausted last used
  | (r, d) :: rest, elapsed, last, used =>
    if elapsed < computeMaxWaitMs then
      if r.exitCode == some 0 then .ready (used + 1)
      else statusPollLoop rest (elapsed + d + computePollIntervalMs)
        (some r) (used + 1)
    else .exhausted last used

/-- Result of `getComputeStatus` when it resolves. -/
inductive ComputeStatusResult where
  | readyInLoop (pollsUsed : Nat)
  | readyAfterInstall (pollsUsed : Nat)
  | indeterminate
deriving Repr, DecidableEq

/-- A run of `getComputeStatus`: the remote commands issued, in order, and
the outcome. -/
structure ComputeStatusRun where
  cmds : List String
  outcome : Except JsErr ComputeStatusResult
deriving Repr

/-- `ComputeProvider.getComputeStatus()`: guard on the sandbox and the
`COMPUTESDK_API_KEY`; poll `compute status` every 500 ms for up to 10 s and
return on the first exit code 0; otherwise run the one-shot install command
with the credential and issue exactly one more status check; if that still
reports a nonzero exit, throw an error carrying
`status.stderr || status.stdout || 'Failed to get Compute status'`. -/
def getComputeStatus (st : ComputeState) (apiKey : Option String)
    (trace : List (RawExecResult × Nat)) (installResult : RawExecResult)
    (finalCheck : RawExecResult) : ComputeStatusRun :=
  if st.sandbox = none then ⟨[], .error noActiveSandboxErr⟩
  else match apiKey with
  | none =>
      ⟨[], .error ⟨some "COMPUTESDK_API_KEY environment variable is not set"⟩⟩
  | some key =>
    match statusPollLoop trace 0 none 0 with
    | .ready used =>
        ⟨List.replicate used computeStatusCmd, .ok (.readyInLoop used)⟩
    | .traceTooShort => ⟨[], .ok .indeterminate⟩
    | .exhausted last used =>
      let lastExit : Option Int :=
        match last with
        | some r => r.exitCode
        | none => none
      if lastExit == some 0 then
        -- dead in practice: the loop only stores nonzero statuses
        ⟨List.replicate used computeStatusCmd, .ok (.readyInLoop used)⟩
      else
        let _installed := installResult
        let cmds := List.replicate used computeStatusCmd ++
          [installCmdFor key, computeStatusCmd]
        if finalCheck.exitCode == some 0 then
          ⟨cmds, .ok (.readyAfterInstall used)⟩
        else
          ⟨cmds, .error ⟨some (jsOrString finalCheck.stderr
            (jsOrString finalCheck.stdout "Failed to get Compute status"))⟩⟩

theorem statusPollLoop_ready_spec (trace : List (RawExecResult × Nat)) :
    ∀ (elapsed : Nat) (last : Option RawExecResult) (used n : Nat),
    statusPollLoop trace elapsed last used = .ready n →
    ∃ pre r d rest, trace = pre ++ (r, d) :: rest ∧
      n = used + pre.length + 1 ∧ (r.exitCode == some 0) = true ∧
      ∀ p ∈ pre, ((p : RawExecResult × Nat).1.exitCode == some 0) = false := by
  induction trace with
  | nil =>
    intro elapsed last used n h
    unfold statusPollLoop at h
    split at h
    · simp at h
    · simp at h
  | cons hd rest ih =>
    intro elapsed last used n h
    obtain ⟨r, d⟩ := hd
    unfold statusPollLoop at h
    split at h
    · split at h
      · rename_i hexit
        have hn : n = used + 1 := by
          cases h
          rfl
        exact ⟨[], r, d, rest, rfl, by simp [hn], hexit, by simp⟩
      · rename_i hexit
        obtain ⟨pre', r', d', rest', htr, hn, hz, hall⟩ :=
          ih _ _ _ _ h
        refine ⟨(r, d) :: pre', r', d', rest', ?_, ?_, hz, ?_⟩
        · rw [htr, List.cons_append]
        · simp only [List.length_cons]
          omega
        · intro p hp
          rcases List.mem_cons.mp hp with hp | hp
          · rw [hp]
            exact Bool.eq_false_iff.mpr (fun hc => hexit hc)
          · exact hall p hp
    · simp at h

theorem statusPollLoop_poll_bound (trace : List (RawExecResult × Nat)) :
    ∀ (elapsed : Nat) (last : Option RawExecResult) (used n : Nat)
      (l : Option RawExecResult),
    (statusPollLoop trace elapsed last used = .ready n ∨
     statusPollLoop trace elapsed last used = .exhausted l n) →
    n = used ∨ (used < n ∧
      elapsed + computePollIntervalMs * (n - used - 1) < computeMaxWaitMs) := by
  induction trace with
  | nil =>
    intro elapsed last used n l h
    unfold statusPollLoop at h
    rcases h with h | h <;> split at h
    · simp at h
    · simp at h
    · simp at h
    · left
      cases h
      rfl
  | cons hd rest ih =>
    intro elapsed last used n l h
    obtain ⟨r, d⟩ := hd
    unfold statusPollLoop at h
    rcases h with h | h
    · split at h
      · have hcond : elapsed < computeMaxWaitMs := by assumption
        split at h
        · right
          have hn : n = used + 1 := by cases h; rfl
          subst hn
          unfold computePollIntervalMs
          unfold computeMaxWaitMs at hcond ⊢
          omega
        · rcases ih _ _ _ _ l (Or.inl h) with h1 | ⟨h1, h2⟩
          · right
            subst h1
            unfold computePollIntervalMs
            unfold computeMaxWaitMs at hcond ⊢
            omega
          · right
            unfold computePollIntervalMs at h2 ⊢
            unfold computeMaxWaitMs at hcond h2 ⊢
            omega
      · simp at h
    · split at h
      · have hcond : elapsed < computeMaxWaitMs := by assumption
        split at h
        · simp at h
        · rcases ih _ _ _ _ l (Or.inr h) with h1 | ⟨h1, h2⟩
          · right
            subst h1
            unfold computePollIntervalMs
            unfold computeMaxWaitMs at hcond ⊢
            omega
          · right
            unfold computePollIntervalMs at h2 ⊢
            unfold computeMaxWaitMs at hcond h2 ⊢
            omega
      · left
        cases h
        rfl

theorem statusPollLoop_exhausted_spec (trace : List (RawExecResult × Nat)) :
    ∀ (elapsed : Nat) (last : Option RawExecResult) (used n : Nat)
      (l : Option RawExecResult),
    statusPollLoop trace elapsed last used = .exhausted l n →
    (∀ r, last = some r → (r.exitCode == some 0) = false) →
    (∀ r, l = some r → (r.exitCode == some 0) = false) ∧
    used ≤ n ∧
    ∃ pre rest, trace = pre ++ rest ∧ pre.length = n - used ∧
      ∀ p ∈ pre, ((p : RawExecResult × Nat).1.exitCode == some 0) = false := by
  induction trace with
  | nil =>
    intro elapsed last used n l h hlast
    unfold statusPollLoop at h
    split at h
    · simp at h
    · cases h
      exact ⟨hlast, le_refl _, [], [], rfl, by simp, by simp⟩
  | cons hd rest ih =>
    intro elapsed last used n l h hlast
    obtain ⟨r, d⟩ := hd
    unfold statusPollLoop at h
    split at h
    · split at h
      · simp at h
      · rename_i hexit
        have hr : ∀ r', some r = some r' →
            (RawExecResult.exitCode r' == some 0) = false := by
          intro r' hr'
          cases hr'
          exact Bool.eq_false_iff.mpr (fun hc => hexit hc)
        obtain ⟨hl, hun, pre', rest', htr, hlen, hall⟩ := ih _ _ _ _ _ h hr
        refine ⟨hl, by omega, (r, d) :: pre', rest', ?_, ?_, ?_⟩
        · rw [htr, List.cons_append]
        · simp only [List.length_cons]
          omega
        · intro p hp
          rcases List.mem_cons.mp hp with hp | hp
          · rw [hp]
            exact Bool.eq_false_iff.mpr (fun hc => hexit hc)
          · exact hall p hp
    · cases h
      exact ⟨hlast, le_refl _, [], (r, d) :: rest, rfl, by simp, by simp⟩

/-- C6: the compute provider's readiness check polls the status command at a
fixed 500 ms interval under a 10 s ceiling (hence at most 20 polls) and
returns as soon as any poll reports exit code 0, without running the install
command; if the ceiling is exhausted with only nonzero polls it runs the
one-shot installation command carrying the pre-supplied credential and then
issues exactly one more status check; if that final check still reports a
nonzero exit it fails with an error carrying
`stderr || stdout || 'Failed to get Compute status'`. -/
theorem c6_readiness_polling (st : ComputeState) (key : String)
    (trace : List (RawExecResult × Nat))
    (installResult finalCheck : RawExecResult) (hst : ¬ st.sandbox = none) :
    (∀ n, statusPollLoop trace 0 none 0 = .ready n →
      getComputeStatus st (some key) trace installResult finalCheck
        = ⟨List.replicate n computeStatusCmd, .ok (.readyInLoop n)⟩ ∧
      n ≤ 20 ∧
      ∃ pre r d rest, trace = pre ++ (r, d) :: rest ∧ n = pre.length + 1 ∧
        (r.exitCode == some 0) = true ∧
        ∀ p ∈ pre, ((p : RawExecResult × Nat).1.exitCode == some 0) = false) ∧
    (∀ l n, statusPollLoop trace 0 none 0 = .exhausted l n →
      (finalCheck.exitCode == some 0) = true →
      getComputeStatus st (some key) trace installResult finalCheck
        = ⟨List.replicate n computeStatusCmd ++
            [installCmdFor key, computeStatusCmd],
           .ok (.readyAfterInstall n)⟩) ∧
    (∀ l n, statusPollLoop trace 0 none 0 = .exhausted l n →
      (finalCheck.exitCode == some 0) = false →
      getComputeStatus st (some key) trace installResult finalCheck
        = ⟨List.replicate n computeStatusCmd ++
            [installCmdFor key, computeStatusCmd],
           .error ⟨some (jsOrString finalCheck.stderr
             (jsOrString finalCheck.stdout
               "Failed to get Compute status"))⟩⟩) ∧
    (∀ l n, statusPollLoop trace 0 none 0 = .exhausted l n →
      n ≤ 20 ∧ ∃ pre rest, trace = pre ++ rest ∧ pre.length = n ∧
        ∀ p ∈ pre, ((p : RawExecResult × Nat).1.exitCode == some 0) = false) := by
  have hvac : ∀ r : RawExecResult, (none : Option RawExecResult) = some r →
      (r.exitCode == some 0) = false := by
    intro r hr
    cases hr
  refine ⟨?_, ?_, ?_, ?_⟩
  · intro n h
    refine ⟨?_, ?_, ?_⟩
    · unfold getComputeStatus
      rw [if_neg hst]
      simp only [h]
    · rcases statusPollLoop_poll_bound trace 0 none 0 n none (Or.inl h)
        with h1 | ⟨h1, h2⟩
      · omega
      · unfold computePollIntervalMs computeMaxWaitMs at h2
        omega
    · obtain ⟨pre, r, d, rest, htr, hn, hz, hall⟩ :=
        statusPollLoop_ready_spec trace 0 none 0 n h
      exact ⟨pre, r, d, rest, htr, by omega, hz, hall⟩
  · intro l n h hfin
    have hl := (statusPollLoop_exhausted_spec trace 0 none 0 n l h hvac).1
    unfold getComputeStatus
    rw [if_neg hst]
    simp only [h]
    cases l with
    | none => simp [hfin]
    | some r => simp [hl r rfl, hfin]
  · intro l n h hfin
    have hl := (statusPollLoop_exhausted_spec trace 0 none 0 n l h hvac).1
    unfold getComputeStatus
    rw [if_neg hst]
    simp only [h]
    cases l with
    | none => simp [hfin]
    | some r => simp [hl r rfl, hfin]
  · intro l n h
    obtain ⟨_, hun, pre, rest, htr, hlen, hall⟩ :=
      statusPollLoop_exhausted_spec trace 0 none 0 n l h hvac
    refine ⟨?_, pre, rest, htr, by omega, hall⟩
    rcases statusPollLoop_poll_bound trace 0 none 0 n l (Or.inr h)
      with h1 | ⟨h1, h2⟩
    · omega
    · unfold computePollIntervalMs computeMaxWaitMs at h2
      omega

/-- Witness for C6: a trace whose second poll reports exit 0 returns after
exactly two status commands with no install; a trace of twenty failing polls
exhausts the 10 s ceiling, triggers the install command with the credential
plus exactly one more status check, and a still-failing final check produces
the error carrying the remote stderr. -/
theorem c6_readiness_polling_witness :
    getComputeStatus ⟨some "sb", none⟩ (some "key-1")
        [(⟨none, none, some 1⟩, 0), (⟨none, none, some 0⟩, 0)]
        ⟨none, none, some 0⟩ ⟨none, none, some 0⟩
      = ⟨[computeStatusCmd, computeStatusCmd], .ok (.readyInLoop 2)⟩ ∧
    getComputeStatus ⟨some "sb", none⟩ (some "key-1")
        (List.replicate 20 (⟨none, none, some 1⟩, 0))
        ⟨none, none, some 0⟩ ⟨none, some "no compute", some 127⟩
      = ⟨List.replicate 20 computeStatusCmd ++
          [installCmdFor "key-1", computeStatusCmd],
         .error ⟨some "no compute"⟩⟩ := by
  constructor
  · have h := (c6_readiness_polling ⟨some "sb", none⟩ "key-1"
      [(⟨none, none, some 1⟩, 0), (⟨none, none, some 0⟩, 0)]
      ⟨none, none, some 0⟩ ⟨none, none, some 0⟩ (by simp)).1 2 (by decide)
    simpa using h.1
  · have h := (c6_readiness_polling ⟨some "sb", none⟩ "key-1"
      (List.replicate 20 (⟨none, none, some 1⟩, 0))
      ⟨none, none, some 0⟩ ⟨none, some "no compute", some 127⟩
      (by simp)).2.2.1 (some ⟨none, none, some 1⟩) 20 (by decide) (by decide)
    simpa [jsOrString] using h

/-! ## C10: ComputeProvider.installPackages with an empty package list -/

/-- `WORKING_DIR` of the compute provider. -/
def computeWorkingDir : String := "app"

/-- `appConfig.packages`, the install-related configuration. -/
structure PackagesCfg where
  useLegacyPeerDeps : Bool
  autoRestartVite : Bool
deriving Repr, DecidableEq

/-- `ComputeProvider.installPackages(packages)`
(src/lib/sandbox/providers/compute-provider.ts; the copy in
src/unnamed/part_002 has the same guard, empty-list early return, command
construction and restart condition): guard; an empty (or missing) package
list returns `{ stdout: '', stderr: '', exitCode: 0, success: true }` before
any remote interaction; otherwise run one `npm install` command (with
`--legacy-peer-deps` when configured), and when it exits zero and
`autoRestartVite` is set, invoke `restartViteServer()` before returning.
The result carries the `CommandResult`, the remote commands issued, and
whether `restartViteServer()` was invoked (its own remote interactions are
not traced here). -/
def computeInstallPackages (st : ComputeState) (cfg : PackagesCfg)
    (packages : List String) (resp : BackendResp) :
    Except JsErr (CommandResult × List String × Bool) :=
  if st.sandbox = none then .error noActiveSandboxErr
  else if packages.isEmpty then
    .ok (⟨"", "", 0, true⟩, [], false)
  else
    let flags := if cfg.useLegacyPeerDeps then "--legacy-peer-deps" else ""
    let pkgList := String.intercalate " " packages
    let command :=
      if flags = "" then
        "cd " ++ computeWorkingDir ++ " && npm install " ++ pkgList
      else
        "cd " ++ computeWorkingDir ++ " && npm install " ++ flags ++ " " ++
          pkgList
    match resp with
    | .err e => .error e
    | .ok r =>
      let exitCode : Int :=
        match r.exitCode with
        | some n => n
        | none => 0
      let restart := cfg.autoRestartVite && (exitCode == 0)
      .ok (⟨jsOrString r.stdout "", jsOrString r.stderr "",
            exitCode, exitCode == 0⟩, [command], restart)

/-- C10: with an active session, `installPackages([])` returns
`{ stdout: '', stderr: '', exitCode: 0, success: true }` immediately — no
remote command is issued and `restartViteServer()` is not invoked — for every
configuration, including `autoRestartVite = true`, and for every backend
state. -/
theorem c10_installPackages_empty_list (st : ComputeState) (cfg : PackagesCfg)
    (resp : BackendResp) (h : ¬ st.sandbox = none) :
    computeInstallPackages st cfg [] resp
      = .ok (⟨"", "", 0, true⟩, [], false) := by
  unfold computeInstallPackages
  rw [if_neg h]
  rfl

/-- Witness for C10: concrete active state, auto-restart enabled, and a
backend response that would report a failure had it been consulted. -/
theorem c10_installPackages_empty_list_witness :
    computeInstallPackages ⟨some "sb", none⟩ ⟨true, true⟩ []
        (.ok ⟨none, some "would fail", some 1⟩)
      = .ok (⟨"", "", 0, true⟩, [], false) :=
  c10_installPackages_empty_list ⟨some "sb", none⟩ ⟨true, true⟩
    (.ok ⟨none, some "would fail", some 1⟩) (by simp)

/-! ## C5: listFiles

The remote directory tree is abstracted as the list of its regular files,
each given as its path components relative to the listed directory (a
component is a `List Char`; components contain no `/`).  `find`'s
`-not -path "*/X/*"` glob matches a printed path exactly when `X` occurs as a
full non-final component (the printed paths are slash-joined, so the
substring `/X/` appears exactly then). -/

/-- The directories excluded by every `find`-based `listFiles`. -/
def excludedDirNames : List (List Char) :=
  ["node_modules".toList, ".git".toList, ".next".toList,
   "dist".toList, "build".toList]

/-- Whether one of `-not -path "*/X/*"` patterns matches the printed path of
the regular file `p`: some non-final component of `p` is an excluded name. -/
def findExcluded (p : List (List Char)) : Bool :=
  p.dropLast.any (fun c => excludedDirNames.contains c)

/-- Slash-join of path components. -/
def joinComps : List (List Char) → List Char
  | [] => []
  | [c] => c
  | c :: rest => c ++ '/' :: joinComps rest

/-- JS `String.prototype.trim` on one line (whitespace at both ends). -/
def charTrim (l : List Char) : List Char :=
  ((l.dropWhile Char.isWhitespace).reverse.dropWhile Char.isWhitespace).reverse

/-- `line.startsWith('./') ? line.slice(2) : line`. -/
def stripDotSlash : List Char → List Char
  | '.' :: '/' :: rest => rest
  | l => l

/-- Output lines of the Daytona `listFiles` remote command
`cd ${dir} && find . -type f -not -path "*/node_modules/*" ...`: one line
`./<path>` per non-excluded regular file. -/
def daytonaFindLines (files : List (List (List Char))) : List (List Char) :=
  (files.filter (fun p => ! findExcluded p)).map
    (fun p => '.' :: '/' :: joinComps p)

/-- `DaytonaProvider.listFiles` stdout post-processing (part_000
lines 201-206): split into lines, trim each, drop empties, strip a leading
`./`. -/
def daytonaParseListLines (lines : List (List Char)) : List (List Char) :=
  ((lines.map charTrim).filter (fun l => ! l.isEmpty)).map stripDotSlash

/-- The Daytona `listFiles` result on the abstracted directory tree. -/
def daytonaListFilesOn (files : List (List (List Char))) : List (List Char) :=
  daytonaParseListLines (daytonaFindLines files)

/-- Output lines of the Vercel `listFiles` remote command
`find ${dir} -type f -not -path ... | sed "s|^${dir}/||"`: `find` prints
`dir/<path>` and the `sed` strips the `dir/` prefix, so one line `<path>` per
regular file whose full printed path matches no exclusion pattern. -/
def vercelFindLines (dirComps : List (List Char))
    (files : List (List (List Char))) : List (List Char) :=
  (files.filter (fun p => ! findExcluded (dirComps ++ p))).map joinComps

/-- `VercelProvider.listFiles` stdout post-processing (part_001): split into
lines, trim each, drop empties. -/
def vercelParseListLines (lines : List (List Char)) : List (List Char) :=
  (lines.map charTrim).filter (fun l => ! l.isEmpty)

/-- The Vercel `listFiles` result on the abstracted directory tree. -/
def vercelListFilesOn (dirComps : List (List Char))
    (files : List (List (List Char))) : List (List Char) :=
  vercelParseListLines (vercelFindLines dirComps files)

/-- Output lines of the compute provider's `listFiles` remote command
`ls -1 ${fullPath}`: the names of the IMMEDIATE entries of the directory —
first components of the files below it, each once.  (`ls` sorts its output;
the model keeps first occurrences, which is irrelevant to the properties
considered and agrees with the sorted order in the concrete inputs used.) -/
def lsEntries (files : List (List (List Char))) : List (List Char) :=
  (files.filterMap (fun p => p.head?)).eraseDups

/-- `ComputeProvider.listFiles` stdout post-processing
(compute-provider.ts lines 188-192): `stdout.trim().split('\n')
.filter(Boolean)` — at line granularity, drop empty lines. -/
def computeParseListLines (lines : List (List Char)) : List (List Char) :=
  lines.filter (fun l => ! l.isEmpty)

/-- The compute `listFiles` result on the abstracted directory tree. -/
def computeListFilesOn (files : List (List (List Char))) : List (List Char) :=
  computeParseListLines (lsEntries files)

/-- A well-formed path component: nonempty, no slash, no whitespace. -/
def goodComp (c : List Char) : Prop :=
  c ≠ [] ∧ ∀ ch ∈ c, ch ≠ '/' ∧ ch.isWhitespace = false

/-- A well-formed relative file path: nonempty list of well-formed
components. -/
def goodPath (p : List (List Char)) : Prop :=
  p ≠ [] ∧ ∀ c ∈ p, goodComp c

instance (c : List Char) : Decidable (goodComp c) := by
  unfold goodComp
  infer_instance

instance (p : List (List Char)) : Decidable (goodPath p) := by
  unfold goodPath
  infer_instance

theorem dropWhile_eq_self_of_false {α : Type} (p : α → Bool) (l : List α)
    (h : ∀ x ∈ l, p x = false) : l.dropWhile p = l := by
  cases l with
  | nil => rfl
  | cons a as =>
    rw [List.dropWhile_cons, h a (List.mem_cons_self a as)]
    simp

theorem charTrim_eq_self (l : List Char)
    (h : ∀ ch ∈ l, ch.isWhitespace = false) : charTrim l = l := by
  unfold charTrim
  rw [dropWhile_eq_self_of_false _ _ h,
      dropWhile_eq_self_of_false _ _ (fun ch hch =>
        h ch (List.mem_reverse.mp hch)),
      List.reverse_reverse]

theorem joinComps_chars (p : List (List Char)) :
    ∀ ch ∈ joinComps p, ch = '/' ∨ ∃ c ∈ p, ch ∈ c := by
  induction p with
  | nil =>
    intro ch hch
    cases hch
  | cons c rest ih =>
    cases rest with
    | nil =>
      intro ch hch
      exact Or.inr ⟨c, List.mem_cons_self _ _, by simpa [joinComps] using hch⟩
    | cons c' rest' =>
      intro ch hch
      simp only [joinComps, List.mem_append, List.mem_cons] at hch
      rcases hch with hch | hch | hch
      · exact Or.inr ⟨c, List.mem_cons_self _ _, hch⟩
      · exact Or.inl hch
      · rcases ih ch hch with h | ⟨c'', hc'', hmem⟩
        · exact Or.inl h
        · exact Or.inr ⟨c'', List.mem_cons_of_mem _ hc'', hmem⟩

theorem joinComps_no_ws (p : List (List Char)) (h : ∀ c ∈ p, goodComp c) :
    ∀ ch ∈ joinComps p, ch.isWhitespace = false := by
  intro ch hch
  rcases joinComps_chars p ch hch with hsl | ⟨c, hc, hmem⟩
  · rw [hsl]
    decide
  · exact ((h c hc).2 ch hmem).2

/-- C5 counterexample: on a directory containing `src/main.jsx`,
`package.json` and `node_modules/react/index.js`, the compute provider's
`listFiles` (`ls -1`) returns the immediate entry names — including the
directory names `node_modules` and `src` — and misses the nested regular
file `src/main.jsx`, so it is not the claimed recursive, exclusion-filtered
enumeration (which the Daytona pipeline produces on the same tree). -/
theorem c5_counterexample_compute_ls_flat :
    computeListFilesOn
        [["node_modules".toList, "react".toList, "index.js".toList],
         ["package.json".toList],
         ["src".toList, "main.jsx".toList]]
      = ["node_modules".toList, "package.json".toList, "src".toList] ∧
    computeListFilesOn
        [["node_modules".toList, "react".toList, "index.js".toList],
         ["package.json".toList],
         ["src".toList, "main.jsx".toList]]
      ≠ daytonaListFilesOn
        [["node_modules".toList, "react".toList, "index.js".toList],
         ["package.json".toList],
         ["src".toList, "main.jsx".toList]] ∧
    "src/main.jsx".toList ∉ computeListFilesOn
        [["node_modules".toList, "react".toList, "index.js".toList],
         ["package.json".toList],
         ["src".toList, "main.jsx".toList]] ∧
    "node_modules".toList ∈ computeListFilesOn
        [["node_modules".toList, "react".toList, "index.js".toList],
         ["package.json".toList],
         ["src".toList, "main.jsx".toList]] ∧
    daytonaListFilesOn
        [["node_modules".toList, "react".toList, "index.js".toList],
         ["package.json".toList],
         ["src".toList, "main.jsx".toList]]
      = ["package.json".toList, "src/main.jsx".toList] := by
  refine ⟨by decide, by decide, by decide, by decide, by decide⟩

theorem findExcluded_append_of_clean (dirComps : List (List Char))
    (p : List (List Char)) (hp : p ≠ [])
    (hdir : ∀ c ∈ dirComps, excludedDirNames.contains c = false) :
    findExcluded (dirComps ++ p) = findExcluded p := by
  obtain ⟨a, p', rfl⟩ := List.exists_cons_of_ne_nil hp
  unfold findExcluded
  rw [List.dropLast_append_cons, List.any_append]
  have : dirComps.any (fun c => excludedDirNames.contains c) = false := by
    rw [List.any_eq_false]
    intro c hc
    rw [hdir c hc]
    simp
  rw [this]
  simp

/-- C5 amended: the Daytona and Vercel `listFiles` pipelines do produce the
claimed enumeration — exactly the regular files under the directory that have
no excluded directory (`node_modules`, `.git`, `.next`, `dist`, `build`)
among their ancestor components, as slash-joined paths relative to the
directory with the leading `./` stripped; in particular no returned path lies
under an excluded directory, and every non-excluded regular file is returned.
The compute provider's `listFiles` does NOT satisfy this: it returns only the
immediate entry names of the directory, without recursion or exclusion (see
the counterexample). -/
theorem c5_listFiles_enumeration :
    (∀ files : List (List (List Char)), (∀ p ∈ files, goodPath p) →
      daytonaListFilesOn files
        = (files.filter (fun p => ! findExcluded p)).map joinComps) ∧
    (∀ files : List (List (List Char)), (∀ p ∈ files, goodPath p) →
      ∀ l ∈ daytonaListFilesOn files,
        ∃ p ∈ files, findExcluded p = false ∧ l = joinComps p) ∧
    (∀ files : List (List (List Char)), (∀ p ∈ files, goodPath p) →
      ∀ p ∈ files, findExcluded p = false →
        joinComps p ∈ daytonaListFilesOn files) ∧
    (∀ (dirComps : List (List Char)) (files : List (List (List Char))),
      (∀ p ∈ files, goodPath p) →
      (∀ c ∈ dirComps, excludedDirNames.contains c = false) →
      vercelListFilesOn dirComps files
        = (files.filter (fun p => ! findExcluded p)).map joinComps) := by
  have hline : ∀ (files : List (List (List Char))),
      (∀ p ∈ files, goodPath p) →
      ∀ l ∈ (files.filter (fun p => ! findExcluded p)).map
          (fun p => '.' :: '/' :: joinComps p),
        charTrim l = l := by
    intro files hgood l hl
    obtain ⟨p, hp, rfl⟩ := List.mem_map.mp hl
    have hp' : p ∈ files := (List.mem_filter.mp hp).1
    apply charTrim_eq_self
    intro ch hch
    simp only [List.mem_cons] at hch
    rcases hch with rfl | rfl | hch
    · decide
    · decide
    · exact joinComps_no_ws p (hgood p hp').2 ch hch
  have hA : ∀ files : List (List (List Char)), (∀ p ∈ files, goodPath p) →
      daytonaListFilesOn files
        = (files.filter (fun p => ! findExcluded p)).map joinComps := by
    intro files hgood
    unfold daytonaListFilesOn daytonaParseListLines daytonaFindLines
    rw [List.map_congr_left (fun l hl => hline files hgood l hl)]
    rw [List.map_id']
    rw [List.filter_eq_self.mpr ?_]
    · rw [List.map_map]
      exact List.map_congr_left (fun p _ => rfl)
    · intro l hl
      obtain ⟨p, _, rfl⟩ := List.mem_map.mp hl
      simp
  refine ⟨hA, ?_, ?_, ?_⟩
  · intro files hgood l hl
    rw [hA files hgood] at hl
    obtain ⟨p, hp, rfl⟩ := List.mem_map.mp hl
    obtain ⟨hp', hex⟩ := List.mem_filter.mp hp
    refine ⟨p, hp', ?_, rfl⟩
    simpa using hex
  · intro files hgood p hp hex
    rw [hA files hgood]
    apply List.mem_map_of_mem
    rw [List.mem_filter]
    exact ⟨hp, by simp [hex]⟩
  · intro dirComps files hgood hdir
    unfold vercelListFilesOn vercelParseListLines vercelFindLines
    have hfe : files.filter (fun p => ! findExcluded (dirComps ++ p))
        = files.filter (fun p => ! findExcluded p) := by
      apply List.filter_congr
      intro p hp
      rw [findExcluded_append_of_clean dirComps p (hgood p hp).1 hdir]
    rw [hfe]
    have hline' : ∀ l ∈ (files.filter (fun p => ! findExcluded p)).map
        joinComps, charTrim l = l := by
      intro l hl
      obtain ⟨p, hp, rfl⟩ := List.mem_map.mp hl
      have hp' : p ∈ files := (List.mem_filter.mp hp).1
      exact charTrim_eq_self _ (joinComps_no_ws p (hgood p hp').2)
    rw [List.map_congr_left (fun l hl => hline' l hl), List.map_id']
    apply List.filter_eq_self.mpr
    intro l hl
    obtain ⟨p, hp, rfl⟩ := List.mem_map.mp hl
    have hp' : p ∈ files := (List.mem_filter.mp hp).1
    have hgp := hgood p hp'
    -- a good path has a nonempty join: its first component is nonempty
    obtain ⟨c, p', rfl⟩ := List.exists_cons_of_ne_nil hgp.1
    have hc : c ≠ [] := (hgp.2 c (List.mem_cons_self _ _)).1
    cases p' with
    | nil =>
      simp only [joinComps]
      simpa using hc
    | cons c' rest =>
      simp only [joinComps]
      obtain ⟨ch, c'', rfl⟩ := List.exists_cons_of_ne_nil hc
      simp

/-- Witness for C5 (amended) at the concrete tree used in the
counterexample: the Daytona pipeline returns exactly the non-excluded
regular files, relative with `./` stripped. -/
theorem c5_listFiles_enumeration_witness :
    daytonaListFilesOn
        [["node_modules".toList, "react".toList, "index.js".toList],
         ["package.json".toList],
         ["src".toList, "main.jsx".toList]]
      = ["package.json".toList, "src/main.jsx".toList] ∧
    vercelListFilesOn ["vercel".toList, "sandbox".toList]
        [["package.json".toList], ["src".toList, "main.jsx".toList]]
      = ["package.json".toList, "src/main.jsx".toList] := by
  constructor
  · have h := c5_listFiles_enumeration.1
      [["node_modules".toList, "react".toList, "index.js".toList],
       ["package.json".toList],
       ["src".toList, "main.jsx".toList]] (by decide)
    rw [h]
    decide
  · have h := c5_listFiles_enumeration.2.2.2
      ["vercel".toList, "sandbox".toList]
      [["package.json".toList], ["src".toList, "main.jsx".toList]]
      (by decide) (by decide)
    rw [h]
    decide

/-! ## C4: writeFile / readFile round trip

Remote file contents are byte lists; a JS string is transmitted as its UTF-8
bytes (`Buffer.from(content, 'utf-8')`).  The Vercel `writeFile` pipes a
base64 payload through `base64 -d`; we implement base64 and prove the decode
of an encode is the identity. -/

/-- One char's UTF-8 bytes (standard 1-4 byte encoding). -/
def utf8EncodeCharB (c : Char) : List Nat :=
  if c.toNat < 128 then [c.toNat]
  else if c.toNat < 2048 then [192 + c.toNat / 64, 128 + c.toNat % 64]
  else if c.toNat < 65536 then
    [224 + c.toNat / 4096, 128 + (c.toNat / 64) % 64, 128 + c.toNat % 64]
  else
    [240 + c.toNat / 262144, 128 + (c.toNat / 4096) % 64,
     128 + (c.toNat / 64) % 64, 128 + c.toNat % 64]

/-- UTF-8 bytes of a string. -/
def utf8Bytes (s : String) : List Nat :=
  (s.data.map utf8EncodeCharB).flatten

theorem utf8EncodeCharB_lt (c : Char) : ∀ b ∈ utf8EncodeCharB c, b < 256 := by
  have hc : c.toNat < 1114112 := by
    have h := c.valid
    unfold UInt32.isValidChar Nat.isValidChar at h
    unfold Char.toNat
    rcases h with h | ⟨h1, h2⟩ <;> omega
  intro b hb
  unfold utf8EncodeCharB at hb
  split at hb
  · rename_i h1
    simp only [List.mem_singleton] at hb
    omega
  · split at hb
    · rename_i h1 h2
      simp only [List.mem_cons, List.not_mem_nil, or_false] at hb
      rcases hb with rfl | rfl <;> omega
    · split at hb
      · rename_i h1 h2 h3
        simp only [List.mem_cons, List.not_mem_nil, or_false] at hb
        rcases hb with rfl | rfl | rfl <;> omega
      · rename_i h1 h2 h3
        simp only [List.mem_cons, List.not_mem_nil, or_false] at hb
        rcases hb with rfl | rfl | rfl | rfl <;> omega

theorem utf8Bytes_lt (s : String) : ∀ b ∈ utf8Bytes s, b < 256 := by
  intro b hb
  unfold utf8Bytes at hb
  obtain ⟨l, hl, hbl⟩ := List.mem_flatten.mp hb
  obtain ⟨c, _, rfl⟩ := List.mem_map.mp hl
  exact utf8EncodeCharB_lt c b hbl

/-- The base64 alphabet. -/
def base64Alphabet : List Char :=
  "ABCDEFGHIJKLMNOPQRSTUVWXYZabcdefghijklmnopqrstuvwxyz0123456789+/".toList

/-- Character of a sextet. -/
def sextetChar (k : Nat) : Char := base64Alphabet.getD k 'A'

/-- Sextet of a character. -/
def charSextet (c : Char) : Nat := base64Alphabet.indexOf c

/-- base64 encoding with `=` padding (`Buffer.toString('base64')`). -/
def base64Encode : List Nat → List Char
  | b0 :: b1 :: b2 :: rest =>
    sextetChar (b0 / 4) :: sextetChar ((b0 % 4) * 16 + b1 / 16) ::
    sextetChar ((b1 % 16) * 4 + b2 / 64) :: sextetChar (b2 % 64) ::
    base64Encode rest
  | [b0, b1] =>
    [sextetChar (b0 / 4), sextetChar ((b0 % 4) * 16 + b1 / 16),
     sextetChar ((b1 % 16) * 4), '=']
  | [b0] =>
    [sextetChar (b0 / 4), sextetChar ((b0 % 4) * 16), '=', '=']
  | [] => []

/-- base64 decoding of well-formed quadruples (as `base64 -d` does on the
encoder's output). -/
def base64DecodeCore : List Char → List Nat
  | c0 :: c1 :: c2 :: c3 :: rest =>
    let s0 := charSextet c0
    let s1 := charSextet c1
    if c2 = '=' then [s0 * 4 + s1 / 16]
    else
      let s2 := charSextet c2
      if c3 = '=' then [s0 * 4 + s1 / 16, (s1 % 16) * 16 + s2 / 4]
      else
        let s3 := charSextet c3
        (s0 * 4 + s1 / 16) :: ((s1 % 16) * 16 + s2 / 4) ::
          ((s2 % 4) * 64 + s3) :: base64DecodeCore rest
  | _ => []

/-- `base64 -d` ignores newlines in its input. -/
def base64Decode (cs : List Char) : List Nat :=
  base64DecodeCore (cs.filter (fun c => ! (c = '\n')))

theorem charSextet_sextetChar : ∀ k < 64, charSextet (sextetChar k) = k := by
  decide

theorem sextetChar_ne_pad_ne_newline (k : Nat) :
    sextetChar k ≠ '=' ∧ sextetChar k ≠ '\n' := by
  unfold sextetChar
  have : base64Alphabet.getD k 'A' = (base64Alphabet.get? k).getD 'A' := rfl
  rw [this]
  cases h : base64Alphabet.get? k with
  | none => exact ⟨by decide, by decide⟩
  | some c =>
    have hmem : c ∈ base64Alphabet := List.get?_mem h
    have hall : ∀ c ∈ base64Alphabet, c ≠ '=' ∧ c ≠ '\n' := by decide
    exact hall c hmem

theorem base64Encode_chars (bs : List Nat) :
    ∀ c ∈ base64Encode bs, c = '=' ∨ ∃ k, c = sextetChar k := by
  have H : ∀ n (bs : List Nat), bs.length ≤ n →
      ∀ c ∈ base64Encode bs, c = '=' ∨ ∃ k, c = sextetChar k := by
    intro n
    induction n with
    | zero =>
      intro bs hlen c hc
      have : bs = [] := List.eq_nil_of_length_eq_zero (Nat.le_zero.mp hlen)
      subst this
      cases hc
    | succ n ih =>
      intro bs hlen c hc
      match bs with
      | [] => cases hc
      | [b0] =>
        simp only [base64Encode, List.mem_cons, List.not_mem_nil, or_false]
          at hc
        rcases hc with rfl | rfl | rfl | rfl
        · exact Or.inr ⟨_, rfl⟩
        · exact Or.inr ⟨_, rfl⟩
        · exact Or.inl rfl
        · exact Or.inl rfl
      | [b0, b1] =>
        simp only [base64Encode, List.mem_cons, List.not_mem_nil, or_false]
          at hc
        rcases hc with rfl | rfl | rfl | rfl
        · exact Or.inr ⟨_, rfl⟩
        · exact Or.inr ⟨_, rfl⟩
        · exact Or.inr ⟨_, rfl⟩
        · exact Or.inl rfl
      | b0 :: b1 :: b2 :: rest =>
        simp only [base64Encode, List.mem_cons] at hc
        rcases hc with rfl | rfl | rfl | rfl | hc
        · exact Or.inr ⟨_, rfl⟩
        · exact Or.inr ⟨_, rfl⟩
        · exact Or.inr ⟨_, rfl⟩
        · exact Or.inr ⟨_, rfl⟩
        · exact ih rest (by simp at hlen; omega) c hc
  exact H bs.length bs (le_refl _)

theorem base64Encode_no_newline (bs : List Nat) :
    (base64Encode bs).filter (fun c => ! (c = '\n')) = base64Encode bs := by
  apply List.filter_eq_self.mpr
  intro c hc
  rcases base64Encode_chars bs c hc with rfl | ⟨k, rfl⟩
  · decide
  · simp [(sextetChar_ne_pad_ne_newline k).2]

theorem base64DecodeCore_encode (bs : List Nat) (hb : ∀ b ∈ bs, b < 256) :
    base64DecodeCore (base64Encode bs) = bs := by
  have H : ∀ n (bs : List Nat), bs.length ≤ n → (∀ b ∈ bs, b < 256) →
      base64DecodeCore (base64Encode bs) = bs := by
    intro n
    induction n with
    | zero =>
      intro bs hlen _
      have : bs = [] := List.eq_nil_of_length_eq_zero (Nat.le_zero.mp hlen)
      subst this
      rfl
    | succ n ih =>
      intro bs hlen hb
      match bs with
      | [] => rfl
      | [b0] =>
        have h0 : b0 < 256 := hb b0 (by simp)
        simp only [base64Encode, base64DecodeCore, reduceIte]
        rw [charSextet_sextetChar (b0 / 4) (by omega),
            charSextet_sextetChar ((b0 % 4) * 16) (by omega)]
        simp only [List.cons.injEq, and_true]
        omega
      | [b0, b1] =>
        have h0 : b0 < 256 := hb b0 (by simp)
        have h1 : b1 < 256 := hb b1 (by simp)
        simp only [base64Encode, base64DecodeCore, reduceIte]
        rw [if_neg (sextetChar_ne_pad_ne_newline ((b1 % 16) * 4)).1]
        rw [charSextet_sextetChar (b0 / 4) (by omega),
            charSextet_sextetChar ((b0 % 4) * 16 + b1 / 16) (by omega),
            charSextet_sextetChar ((b1 % 16) * 4) (by omega)]
        simp only [List.cons.injEq, and_true]
        constructor <;> omega
      | b0 :: b1 :: b2 :: rest =>
        have h0 : b0 < 256 := hb b0 (by simp)
        have h1 : b1 < 256 := hb b1 (by simp)
        have h2 : b2 < 256 := hb b2 (by simp)
        simp only [base64Encode, base64DecodeCore]
        rw [if_neg (sextetChar_ne_pad_ne_newline ((b1 % 16) * 4 + b2 / 64)).1,
            if_neg (sextetChar_ne_pad_ne_newline (b2 % 64)).1]
        rw [charSextet_sextetChar (b0 / 4) (by omega),
            charSextet_sextetChar ((b0 % 4) * 16 + b1 / 16) (by omega),
            charSextet_sextetChar ((b1 % 16) * 4 + b2 / 64) (by omega),
            charSextet_sextetChar (b2 % 64) (by omega)]
        have hrest := ih rest (by simp at hlen; omega)
          (fun b hbm => hb b (by simp [hbm]))
        simp only [List.cons.injEq]
        refine ⟨by omega, by omega, by omega, hrest⟩
  exact H bs.length bs (le_refl _) hb

/-- Decoding the encoder's output with a trailing newline (as produced by
`echo '<payload>'`) recovers the original bytes. -/
theorem base64Decode_encode_newline (bs : List Nat)
    (hb : ∀ b ∈ bs, b < 256) :
    base64Decode (base64Encode bs ++ ['\n']) = bs := by
  unfold base64Decode
  rw [List.filter_append, base64Encode_no_newline]
  have : (['\n'] : List Char).filter (fun c => ! (c = '\n')) = [] := by decide
  rw [this, List.append_nil]
  exact base64DecodeCore_encode bs hb

/-- Remote file contents. -/
abbrev FileData := List Nat

/-- The remote filesystem, path to bytes. -/
abbrev RemoteFs := List (String × FileData)

/-- `path.startsWith('/')`. -/
def jsStartsWithSlash (path : String) : Bool :=
  path.data.head? = some '/'

/-- ``path.startsWith('/') ? path : `${wd}/${path}` ``, the path resolution
of the Daytona and Vercel providers. -/
def resolveAgainstWd (wd path : String) : String :=
  if jsStartsWithSlash path then path else wd ++ "/" ++ path

/-- `ComputeProvider.resolvePath(path)`: empty or `'.'` resolves to the
working directory `'app'`; absolute paths pass through; otherwise prefix the
working directory (it has no trailing slash to strip). -/
def computeResolvePath (path : String) : String :=
  if path = "" ∨ path = "." then computeWorkingDir
  else if jsStartsWithSlash path then path
  else computeWorkingDir ++ "/" ++ path

/-- `s.replace(c, rep)` on bytes for a single-character global regex, as used
by the Daytona escaping chain. -/
def jsReplaceByte (bs : List Nat) (target : Nat) (rep : List Nat) :
    List Nat :=
  (bs.map (fun b => if b = target then rep else [b])).flatten

/-- The Daytona shell-fallback escaping chain, in source order:
backslash to double backslash, then escape `"`, `$`, `` ` ``, and replace a
newline by the two characters backslash-n (bytes: 92, 34, 36, 96, 10). -/
def daytonaEscapeBytes (bs : List Nat) : List Nat :=
  jsReplaceByte
    (jsReplaceByte
      (jsReplaceByte
        (jsReplaceByte
          (jsReplaceByte bs 92 [92, 92])
          34 [92, 34])
        36 [92, 36])
      96 [92, 96])
    10 [92, 110]

/-- POSIX double-quote removal applied by the shell to the interpolated
argument of `echo "<escaped>"`: a backslash before `\`, `"`, `$` or `` ` ``
escapes it; other bytes pass through. -/
def shellDequoteBytes : List Nat → List Nat
  | 92 :: 92 :: rest => 92 :: shellDequoteBytes rest
  | 92 :: 34 :: rest => 34 :: shellDequoteBytes rest
  | 92 :: 36 :: rest => 36 :: shellDequoteBytes rest
  | 92 :: 96 :: rest => 96 :: shellDequoteBytes rest
  | b :: rest => b :: shellDequoteBytes rest
  | [] => []

/-- Bytes written by `echo "<escaped>" > file`: the dequoted argument (the
`bash` builtin `echo` does not interpret backslash escapes) plus the newline
`echo` appends. -/
def daytonaEchoWrite (escaped : List Nat) : List Nat :=
  shellDequoteBytes escaped ++ [10]

/-- `DaytonaProvider.writeFile(path, content)`: guard, resolve the full path
against the working directory, best-effort parent `mkdir` (no effect in the
flat filesystem model), then either the native `filesystem.writeFile`
(stores the content bytes verbatim) or the shell fallback
`echo "<escaped>" > "<fullPath>"` (stores the dequoted escaped bytes plus a
trailing newline); finally track the file locally. -/
def daytonaWriteFile (st : DaytonaState) (cfgWd : Option String)
    (hasNativeFs : Bool) (fs : RemoteFs) (path content : String) :
    Except JsErr (RemoteFs × DaytonaState) :=
  if st.sandbox = none then .error noActiveSandboxErr
  else match daytonaEnsureWorkingDir st cfgWd with
  | .error e => .error e
  | .ok cwd =>
    let fullPath := resolveAgainstWd cwd path
    let written :=
      if hasNativeFs then utf8Bytes content
      else daytonaEchoWrite (daytonaEscapeBytes (utf8Bytes content))
    .ok (mapSet fs fullPath written,
         ⟨st.sandbox, st.sandboxInfo, st.workingDir,
          path :: st.existingFiles⟩)

/-- `DaytonaProvider.readFile(path)`: guard, resolve, then either the native
`filesystem.readFile` or `cat <fullPath>`, throwing on a missing file (the
remote read's nonzero exit). -/
def daytonaReadFile (st : DaytonaState) (cfgWd : Option String)
    (hasNativeFs : Bool) (fs : RemoteFs) (path : String) :
    Except JsErr FileData :=
  if st.sandbox = none then .error noActiveSandboxErr
  else match daytonaEnsureWorkingDir st cfgWd with
  | .error e => .error e
  | .ok cwd =>
    let fullPath := resolveAgainstWd cwd path
    let _native := hasNativeFs
    match mapGet fs fullPath with
    | some data => .ok data
    | none => .error ⟨some ("Failed to read file: cat: " ++ fullPath ++
        ": No such file or directory")⟩

/-- `VercelProvider.writeFile(path, content)` (both copies of part_001):
guard, resolve, best-effort `mkdir`, then
``echo '<base64(content)>' | base64 -d > '<fullPath>'``; the base64 payload
(alphabet and `=` only) needs no shell escaping, `echo` appends a newline
which `base64 -d` ignores, and the decoded bytes are redirected into the
file; a nonzero exit would be re-thrown (the command succeeds here). -/
def vercelWriteFile (st : VercelState) (wd : String) (fs : RemoteFs)
    (path content : String) : Except JsErr (RemoteFs × VercelState) :=
  if st.sandbox = none then .error noActiveSandboxErr
  else
    let fullPath := resolveAgainstWd wd path
    let payload := base64Encode (utf8Bytes content)
    let written := base64Decode (payload ++ ['\n'])
    .ok (mapSet fs fullPath written,
         ⟨st.sandbox, st.sandboxInfo, path :: st.existingFiles⟩)

/-- `VercelProvider.readFile(path)` (second copy; the first copy's native
`filesystem.readFile` reads the same bytes): guard, resolve, `cat
'<fullPath>'`, throwing on a nonzero exit (missing file), else the file's
bytes from stdout. -/
def vercelReadFile (st : VercelState) (wd : String) (fs : RemoteFs)
    (path : String) : Except JsErr FileData :=
  if st.sandbox = none then .error noActiveSandboxErr
  else
    let fullPath := resolveAgainstWd wd path
    match mapGet fs fullPath with
    | some data => .ok data
    | none => .error ⟨some ("Failed to read file: cat: " ++ fullPath ++
        ": No such file or directory")⟩

/-- `ComputeProvider.writeFile(path, content)`: guard, resolve, best-effort
parent `mkdir -p` command, then the SDK's native `sandbox.writeFile`, which
stores the content bytes verbatim. -/
def computeWriteFile (st : ComputeState) (fs : RemoteFs)
    (path content : String) : Except JsErr RemoteFs :=
  if st.sandbox = none then .error noActiveSandboxErr
  else .ok (mapSet fs (computeResolvePath path) (utf8Bytes content))

/-- `ComputeProvider.readFile(path)`: guard, resolve, `cat` (used instead of
the native read to avoid timeouts), throwing on nonzero exit. -/
def computeReadFile (st : ComputeState) (fs : RemoteFs) (path : String) :
    Except JsErr FileData :=
  if st.sandbox = none then .error noActiveSandboxErr
  else
    match mapGet fs (computeResolvePath path) with
    | some data => .ok data
    | none => .error ⟨some ("Failed to read file " ++
        computeResolvePath path ++ ": File not found")⟩

/-- C4 counterexample: the Daytona shell fallback (no native file-write
primitive) does not transmit the content base64-encoded — it interpolates
the backslash-escaped text into `echo "..." > file` — and the round trip
breaks: writing the empty string stores the single byte `0x0A` (the newline
`echo` appends), so `readFile` returns a newline, not the written content. -/
theorem c4_counterexample_daytona_fallback_roundtrip :
    daytonaWriteFile ⟨some "sb", none, some "/w", []⟩ (some "/w") false []
        "f.txt" ""
      = .ok ([("/w/f.txt", [10])],
             ⟨some "sb", none, some "/w", ["f.txt"]⟩) ∧
    daytonaReadFile ⟨some "sb", none, some "/w", ["f.txt"]⟩ (some "/w")
        false [("/w/f.txt", [10])] "f.txt"
      = .ok [10] ∧
    utf8Bytes "" = [] ∧
    ([10] : List Nat) ≠ ([] : List Nat) := by
  refine ⟨rfl, rfl, rfl, by decide⟩

theorem daytonaEnsureWorkingDir_congr (st st' : DaytonaState)
    (cfgWd : Option String) (h1 : st'.sandbox = st.sandbox)
    (h2 : st'.workingDir = st.workingDir) :
    daytonaEnsureWorkingDir st' cfgWd = daytonaEnsureWorkingDir st cfgWd := by
  unfold daytonaEnsureWorkingDir
  rw [h1, h2]

/-- C4 amended: with an active session the round trip
`writeFile(p, c); readFile(p)` returns exactly the bytes of `c` for the
Vercel provider (which base64-encodes the content, pipes it through
`base64 -d`, and so transmits newlines, quotes, backticks, dollar signs and
multi-byte characters without shell corruption), for the Daytona provider
when the backend exposes the native file-write primitive, and for the
compute provider (native write).  The Daytona provider's shell fallback,
used when there is no native primitive, does NOT base64-encode: it writes
via backslash-escaped `echo`, which breaks the round trip (see the
counterexample). -/
theorem c4_writeFile_readFile_roundtrip :
    (∀ (st : VercelState) (wd : String) (fs : RemoteFs)
      (path content : String), st.sandbox ≠ none →
      ∃ fs' st', vercelWriteFile st wd fs path content = .ok (fs', st') ∧
        vercelReadFile st' wd fs' path = .ok (utf8Bytes content)) ∧
    (∀ (st : DaytonaState) (cfgWd : Option String) (fs : RemoteFs)
      (path content w : String),
      st.sandbox ≠ none → daytonaEnsureWorkingDir st cfgWd = .ok w →
      ∃ fs' st', daytonaWriteFile st cfgWd true fs path content
          = .ok (fs', st') ∧
        daytonaReadFile st' cfgWd true fs' path = .ok (utf8Bytes content)) ∧
    (∀ (st : ComputeState) (fs : RemoteFs) (path content : String),
      st.sandbox ≠ none →
      ∃ fs', computeWriteFile st fs path content = .ok fs' ∧
        computeReadFile st fs' path = .ok (utf8Bytes content)) := by
  refine ⟨?_, ?_, ?_⟩
  · intro st wd fs path content h
    refine ⟨mapSet fs (resolveAgainstWd wd path)
        (base64Decode (base64Encode (utf8Bytes content) ++ ['\n'])),
      ⟨st.sandbox, st.sandboxInfo, path :: st.existingFiles⟩, ?_, ?_⟩
    · unfold vercelWriteFile
      rw [if_neg h]
    · unfold vercelReadFile
      rw [if_neg h]
      simp only [mapGet_mapSet_self,
        base64Decode_encode_newline _ (utf8Bytes_lt content)]
  · intro st cfgWd fs path content w h hw
    refine ⟨mapSet fs (resolveAgainstWd w path) (utf8Bytes content),
      ⟨st.sandbox, st.sandboxInfo, st.workingDir,
       path :: st.existingFiles⟩, ?_, ?_⟩
    · unfold daytonaWriteFile
      rw [if_neg h, hw]
      simp only [if_true]
    · unfold daytonaReadFile
      rw [if_neg h, daytonaEnsureWorkingDir_congr st
        ⟨st.sandbox, st.sandboxInfo, st.workingDir,
         path :: st.existingFiles⟩ cfgWd rfl rfl, hw]
      simp only [mapGet_mapSet_self]
  · intro st fs path content h
    refine ⟨mapSet fs (computeResolvePath path) (utf8Bytes content), ?_, ?_⟩
    · unfold computeWriteFile
      rw [if_neg h]
    · unfold computeReadFile
      rw [if_neg h]
      simp only [mapGet_mapSet_self]

/-- Witness for C4 (amended) at a concrete content containing an apostrophe,
a backtick, a dollar sign, a newline and a multi-byte character. -/
theorem c4_writeFile_readFile_roundtrip_witness :
    (∃ fs' st', vercelWriteFile ⟨some "sb", none, []⟩ "/v" [] "a.txt"
        "h\x27`$\n€" = .ok (fs', st') ∧
      vercelReadFile st' "/v" fs' "a.txt" = .ok (utf8Bytes "h\x27`$\n€")) ∧
    (∃ fs' st', daytonaWriteFile ⟨some "sb", none, some "/w", []⟩ (some "/w")
        true [] "a.txt" "h\x27`$\n€" = .ok (fs', st') ∧
      daytonaReadFile st' (some "/w") true fs' "a.txt"
        = .ok (utf8Bytes "h\x27`$\n€")) ∧
    (∃ fs', computeWriteFile ⟨some "sb", none⟩ [] "a.txt" "h\x27`$\n€"
        = .ok fs' ∧
      computeReadFile ⟨some "sb", none⟩ fs' "a.txt"
        = .ok (utf8Bytes "h\x27`$\n€")) := by
  refine ⟨c4_writeFile_readFile_roundtrip.1 ⟨some "sb", none, []⟩ "/v" []
      "a.txt" "h\x27`$\n€" (by simp),
    c4_writeFile_readFile_roundtrip.2.1 ⟨some "sb", none, some "/w", []⟩
      (some "/w") [] "a.txt" "h\x27`$\n€" "/w" (by simp) rfl,
    c4_writeFile_readFile_roundtrip.2.2 ⟨some "sb", none⟩ [] "a.txt"
      "h\x27`$\n€" (by simp)⟩

/-! Scaffold file contents written by `setupViteApp` (verbatim from the
sources; apostrophes and braces are escaped for this development). -/

/-- Output of `JSON.stringify(packageJson, null, 2)` — identical in all three providers. -/
def scaffoldPackageJsonText : String :=
  "\x7b\n  \"name\": \"sandbox-app\",\n  \"version\": \"1.0.0\",\n  \"type\": \"module\",\n  \"scripts\": \x7b\n    \"dev\": \"vite --host\",\n    \"build\": \"vite build\",\n    \"preview\": \"vite preview\"\n  \x7d,\n  \"dependencies\": \x7b\n    \"react\": \"^18.2.0\",\n    \"react-dom\": \"^18.2.0\"\n  \x7d,\n  \"devDependencies\": \x7b\n    \"@vitejs/plugin-react\": \"^4.0.0\",\n    \"vite\": \"^4.3.9\",\n    \"tailwindcss\": \"^3.3.0\",\n    \"postcss\": \"^8.4.31\",\n    \"autoprefixer\": \"^10.4.16\"\n  \x7d\n\x7d"

/-- Daytona scaffold `viteConfig`. -/
def daytonaViteConfigText (port : Nat) : String :=
  "import \x7b defineConfig \x7d from \x27vite\x27\nimport react from \x27@vitejs/plugin-react\x27\n\nexport default defineConfig(\x7b\n  plugins: [react()],\n  server: \x7b\n    host: \x270.0.0.0\x27,\n    port: " ++ toString port ++ ",\n    strictPort: true,\n    allowedHosts: [\n      \x27.proxy.daytona.work\x27,\n      \x27localhost\x27,\n      \x27127.0.0.1\x27,\n    ],\n    hmr: \x7b\n      clientPort: 443,\n      protocol: \x27wss\x27,\n    \x7d,\n  \x7d,\n\x7d)"

/-- Daytona scaffold `tailwindConfig`. -/
def daytonaTailwindConfigText : String :=
  "/** @type \x7bimport(\x27tailwindcss\x27).Config\x7d */\nexport default \x7b\n  content: [\n    \"./index.html\",\n    \"./src/**/*.\x7bjs,ts,jsx,tsx\x7d\",\n  ],\n  theme: \x7b\n    extend: \x7b\x7d,\n  \x7d,\n  plugins: [],\n\x7d"

/-- Daytona scaffold `postcssConfig`. -/
def daytonaPostcssConfigText : String :=
  "export default \x7b\n  plugins: \x7b\n    tailwindcss: \x7b\x7d,\n    autoprefixer: \x7b\x7d,\n  \x7d,\n\x7d"

/-- Daytona scaffold `indexHtml`. -/
def daytonaIndexHtmlText : String :=
  "<!DOCTYPE html>\n<html lang=\"en\">\n  <head>\n    <meta charset=\"UTF-8\" />\n    <meta name=\"viewport\" content=\"width=device-width, initial-scale=1.0\" />\n    <title>Sandbox App</title>\n  </head>\n  <body>\n    <div id=\"root\"></div>\n    <script type=\"module\" src=\"/src/main.jsx\"></script>\n  </body>\n</html>"

/-- Daytona scaffold `mainJsx`. -/
def daytonaMainJsxText : String :=
  "import React from \x27react\x27\nimport ReactDOM from \x27react-dom/client\x27\nimport App from \x27./App.jsx\x27\nimport \x27./index.css\x27\n\nReactDOM.createRoot(document.getElementById(\x27root\x27)).render(\n  <React.StrictMode>\n    <App />\n  </React.StrictMode>,\n)\n"

/-- Daytona scaffold `appJsx`. -/
def daytonaAppJsxText : String :=
  "function App() \x7b\n  return (\n    <div className=\"min-h-screen bg-gray-900 text-white flex items-center justify-center p-4\">\n      <div className=\"text-center max-w-2xl\">\n        <p className=\"text-lg text-gray-400\">\n          Daytona Sandbox Ready<br/>\n          Start building your React app with Vite and Tailwind CSS!\n        </p>\n      </div>\n    </div>\n  )\n\x7d\n\nexport default App"

/-- Daytona scaffold `indexCss`. -/
def daytonaIndexCssText : String :=
  "@tailwind base;\n@tailwind components;\n@tailwind utilities;\n\nbody \x7b\n  font-family: -apple-system, BlinkMacSystemFont, \x27Segoe UI\x27, Roboto, Oxygen, Ubuntu, sans-serif;\n  background-color: rgb(17 24 39);\n\x7d"

/-- Vercel scaffold `viteConfig` (part_001, second copy). -/
def vercelViteConfigText (port : Nat) : String :=
  "import \x7b defineConfig \x7d from \x27vite\x27\nimport react from \x27@vitejs/plugin-react\x27\n\nexport default defineConfig(\x7b\n  plugins: [react()],\n  server: \x7b\n    host: \x270.0.0.0\x27,\n    port: " ++ toString port ++ ",\n    strictPort: true,\n    allowedHosts: [\n      \x27.vercel.run\x27,\n      \x27localhost\x27,\n    ],\n    hmr: \x7b\n      clientPort: 443,\n      protocol: \x27wss\x27,\n    \x7d,\n  \x7d,\n\x7d)"

/-- Vercel scaffold `tailwindConfig` (part_001, second copy). -/
def vercelTailwindConfigText : String :=
  "/** @type \x7bimport(\x27tailwindcss\x27).Config\x7d */\nexport default \x7b\n  content: [\n    \"./index.html\",\n    \"./src/**/*.\x7bjs,ts,jsx,tsx\x7d\",\n  ],\n  theme: \x7b\n    extend: \x7b\x7d,\n  \x7d,\n  plugins: [],\n\x7d"

/-- Vercel scaffold `postcssConfig` (part_001, second copy). -/
def vercelPostcssConfigText : String :=
  "export default \x7b\n  plugins: \x7b\n    tailwindcss: \x7b\x7d,\n    autoprefixer: \x7b\x7d,\n  \x7d,\n\x7d"

/-- Vercel scaffold `indexHtml` (part_001, second copy). -/
def vercelIndexHtmlText : String :=
  "<!DOCTYPE html>\n<html lang=\"en\">\n  <head>\n    <meta charset=\"UTF-8\" />\n    <meta name=\"viewport\" content=\"width=device-width, initial-scale=1.0\" />\n    <title>Sandbox App</title>\n  </head>\n  <body>\n    <div id=\"root\"></div>\n    <script type=\"module\" src=\"/src/main.jsx\"></script>\n  </body>\n</html>"

/-- Vercel scaffold `mainJsx` (part_001, second copy). -/
def vercelMainJsxText : String :=
  "import React from \x27react\x27\nimport ReactDOM from \x27react-dom/client\x27\nimport App from \x27./App.jsx\x27\nimport \x27./index.css\x27\n\nReactDOM.createRoot(document.getElementById(\x27root\x27)).render(\n  <React.StrictMode>\n    <App />\n  </React.StrictMode>,\n)"

/-- Vercel scaffold `appJsx` (part_001, second copy). -/
def vercelAppJsxText : String :=
  "function App() \x7b\n  return (\n    <div className=\"min-h-screen bg-gray-900 text-white flex items-center justify-center p-4\">\n      <div className=\"text-center max-w-2xl\">\n        <p className=\"text-lg text-gray-400\">\n          Vercel Sandbox Ready<br/>\n          Start building your React app with Vite and Tailwind CSS!\n        </p>\n      </div>\n    </div>\n  )\n\x7d\n\nexport default App"

/-- Vercel scaffold `indexCss` (part_001, second copy). -/
def vercelIndexCssText : String :=
  "@tailwind base;\n@tailwind components;\n@tailwind utilities;\n\nbody \x7b\n  font-family: -apple-system, BlinkMacSystemFont, \x27Segoe UI\x27, Roboto, Oxygen, Ubuntu, sans-serif;\n  background-color: rgb(17 24 39);\n\x7d"

/-- Compute scaffold `viteConfig`. -/
def computeViteConfigText (port : Nat) : String :=
  "import \x7b defineConfig \x7d from \x27vite\x27\nimport react from \x27@vitejs/plugin-react\x27\n\nexport default defineConfig(\x7b\n  plugins: [react()],\n  server: \x7b\n    host: \x270.0.0.0\x27,\n    port: " ++ toString port ++ ",\n    strictPort: true,\n    hmr: false,\n    allowedHosts: [\x27.e2b.app\x27, \x27.e2b.dev\x27, \x27.vercel.run\x27, \x27localhost\x27, \x27127.0.0.1\x27, \x27.computesdk.com\x27],\n  \x7d,\n\x7d)\n"

/-- Compute scaffold `tailwindConfig`. -/
def computeTailwindConfigText : String :=
  "/** @type \x7bimport(\x27tailwindcss\x27).Config\x7d */\nexport default \x7b\n  content: [\n    \"./index.html\",\n    \"./src/**/*.\x7bjs,ts,jsx,tsx\x7d\",\n  ],\n  theme: \x7b\n    extend: \x7b\x7d,\n  \x7d,\n  plugins: [],\n\x7d\n"

/-- Compute scaffold `postcssConfig`. -/
def computePostcssConfigText : String :=
  "export default \x7b\n  plugins: \x7b\n    tailwindcss: \x7b\x7d,\n    autoprefixer: \x7b\x7d,\n  \x7d,\n\x7d\n"

/-- Compute scaffold `indexHtml`. -/
def computeIndexHtmlText : String :=
  "<!DOCTYPE html>\n<html lang=\"en\">\n  <head>\n    <meta charset=\"UTF-8\" />\n    <meta name=\"viewport\" content=\"width=device-width, initial-scale=1.0\" />\n    <title>Compute Sandbox App</title>\n  </head>\n  <body>\n    <div id=\"root\"></div>\n    <script type=\"module\" src=\"/src/main.jsx\"></script>\n  </body>\n</html>\n"

/-- Compute scaffold `mainJsx`. -/
def computeMainJsxText : String :=
  "import React from \x27react\x27;\nimport ReactDOM from \x27react-dom/client\x27;\nimport App from \x27./App.jsx\x27;\nimport \x27./index.css\x27;\n\nReactDOM.createRoot(document.getElementById(\x27root\x27)).render(\n  <React.StrictMode>\n    <App />\n  </React.StrictMode>,\n);\n"

/-- Compute scaffold `appJsx`. -/
def computeAppJsxText : String :=
  "function App() \x7b\n  return (\n    <div className=\"min-h-screen bg-gray-900 text-white flex items-center justify-center p-4\">\n      <div className=\"text-center max-w-2xl\">\n        <p className=\"text-lg text-gray-400\">\n          Sandbox Ready<br/>\n          Start building your React app with Vite and Tailwind CSS!\n        </p>\n      </div>\n    </div>\n  )\n\x7d\n\nexport default App\n"

/-- Compute scaffold `indexCss`. -/
def computeIndexCssText : String :=
  "@tailwind base;\n@tailwind components;\n@tailwind utilities;\n\nbody \x7b\n  font-family: -apple-system, BlinkMacSystemFont, \x27Segoe UI\x27, Roboto, Oxygen, Ubuntu, sans-serif;\n  background-color: rgb(17 24 39);\n\x7d\n"


/-! ## Remaining provider operations (for the session-guard property) -/

/-- `DaytonaProvider.listFiles(directory?)`: guard, resolve the working
directory, default `directory || cwd`, run the `find` command (exit code and
output lines from the oracle); a nonzero exit yields `[]`, otherwise the
parsed lines. -/
def daytonaListFiles (st : DaytonaState) (cfgWd : Option String)
    (directory : Option String) (findExit : Option Int)
    (findLines : List (List Char)) : Except JsErr (List (List Char)) :=
  if st.sandbox = none then .error noActiveSandboxErr
  else match daytonaEnsureWorkingDir st cfgWd with
  | .error e => .error e
  | .ok cwd =>
    let _dir := jsOrString directory cwd
    if ¬ (findExit = some 0) then .ok []
    else .ok (daytonaParseListLines findLines)

/-- `VercelProvider.listFiles(directory?)`: guard, default to the configured
working directory, run `find ... | sed ...`; a nonzero exit yields `[]`. -/
def vercelListFiles (st : VercelState) (wd : String)
    (directory : Option String) (findExit : Option Int)
    (findLines : List (List Char)) : Except JsErr (List (List Char)) :=
  if st.sandbox = none then .error noActiveSandboxErr
  else
    let _dir := jsOrString directory wd
    if ¬ (findExit = some 0) then .ok []
    else .ok (vercelParseListLines findLines)

/-- `ComputeProvider.listFiles(directory = WORKING_DIR)`: guard, resolve, run
`ls -1`; nonzero exit or empty stdout yields `[]`. -/
def computeListFiles (st : ComputeState) (directory : String)
    (lsExit : Option Int) (lsLines : List (List Char)) :
    Except JsErr (List (List Char)) :=
  if st.sandbox = none then .error noActiveSandboxErr
  else
    let _fullPath := computeResolvePath directory
    if ¬ (lsExit = some 0) ∨ lsLines = [] then .ok []
    else .ok (computeParseListLines lsLines)

/-- `DaytonaProvider.installPackages(packages)`: guard, resolve the working
directory, build `npm install` arguments from the legacy-peer-deps config,
the `NPM_FLAGS` environment variable and the package names, run it (NO
`try`/`catch`: a rejected backend call propagates), then restart Vite when
the install exited zero and auto-restart is configured.  Returns the
`CommandResult`, the npm arguments, and whether `restartViteServer()` was
invoked. -/
def daytonaInstallPackages (st : DaytonaState) (cfgWd : Option String)
    (cfg : PackagesCfg) (npmFlagsEnv : Option String)
    (packages : List String) (resp : BackendResp) :
    Except JsErr (CommandResult × List String × Bool) :=
  if st.sandbox = none then .error noActiveSandboxErr
  else match daytonaEnsureWorkingDir st cfgWd with
  | .error e => .error e
  | .ok _cwd =>
    let legacyFlag :=
      if cfg.useLegacyPeerDeps then ["--legacy-peer-deps"] else []
    let extraFlags :=
      match npmFlagsEnv with
      | some s => s.split (fun c => c = ' ')
      | none => []
    let args := "install" :: (legacyFlag ++ extraFlags ++ packages)
    match resp with
    | .err e => .error e
    | .ok r =>
      let restart := (r.exitCode == some 0) && cfg.autoRestartVite
      .ok (⟨jsOrString r.stdout "", jsOrString r.stderr "",
            r.exitCode.getD 0, r.exitCode == some 0⟩, args, restart)

/-- `VercelProvider.installPackages(packages)` (part_001, both copies):
same argument construction and restart condition as the Daytona provider,
with the configured working directory. -/
def vercelInstallPackages (st : VercelState) (cfg : PackagesCfg)
    (npmFlagsEnv : Option String) (packages : List String)
    (resp : BackendResp) : Except JsErr (CommandResult × List String × Bool) :=
  if st.sandbox = none then .error noActiveSandboxErr
  else
    let legacyFlag :=
      if cfg.useLegacyPeerDeps then ["--legacy-peer-deps"] else []
    let extraFlags :=
      match npmFlagsEnv with
      | some s => s.split (fun c => c = ' ')
      | none => []
    let args := "install" :: (legacyFlag ++ extraFlags ++ packages)
    match resp with
    | .err e => .error e
    | .ok r =>
      let restart := (r.exitCode == some 0) && cfg.autoRestartVite
      .ok (⟨jsOrString r.stdout "", jsOrString r.stderr "",
            r.exitCode.getD 0, r.exitCode == some 0⟩, args, restart)

/-- `DaytonaProvider.restartViteServer()`: guard, resolve the working
directory, best-effort `pkill`, start Vite detached with `nohup` redirecting
to a log file, then wait the fixed startup delay.  Returns the shell
commands issued. -/
def daytonaRestartViteServer (st : DaytonaState) (cfgWd : Option String) :
    Except JsErr (List String) :=
  if st.sandbox = none then .error noActiveSandboxErr
  else match daytonaEnsureWorkingDir st cfgWd with
  | .error e => .error e
  | .ok cwd =>
    .ok ["pkill -f vite || true",
         "cd " ++ cwd ++ " && nohup npm run dev > " ++ cwd ++
           "/vite.log 2>&1 &"]

/-- `VercelProvider.restartViteServer()` (part_001, second copy): guard,
best-effort `pkill`, fixed settle delay, background `npm run dev` (failures
logged), fixed startup delay. -/
def vercelRestartViteServer (st : VercelState) (wd : String) :
    Except JsErr (List String) :=
  if st.sandbox = none then .error noActiveSandboxErr
  else
    let _cwd := wd
    .ok ["pkill -f vite || true", "npm run dev"]

/-- `ComputeProvider.restartViteServer()`: guard, `pkill`, settle delay,
fire-and-forget `nohup npm run dev`, startup delay, then the two debug
commands (`ps`, `tail` of the Vite log). -/
def computeRestartViteServer (st : ComputeState) : Except JsErr (List String) :=
  if st.sandbox = none then .error noActiveSandboxErr
  else
    .ok ["pkill -f vite || true",
         "cd " ++ computeWorkingDir ++ " && nohup npm run dev > vite.log 2>&1 &",
         "ps aux | grep vite | head -5",
         "tail -20 " ++ computeWorkingDir ++ "/vite.log"]

/-- `DaytonaProvider.setupViteApp()`: guard, `mkdir -p ${cwd}/src`, write the
eight scaffold files through `this.writeFile`, run `npm install` through
`this.runCommand` (its result is not inspected), then
`restartViteServer()`.  (The final `existingFiles.add` calls re-add names the
writes already tracked — a no-op for the remote state.) -/
def daytonaSetupViteApp (st : DaytonaState) (cfgWd : Option String)
    (hasNativeFs : Bool) (port : Nat) (fs : RemoteFs)
    (installResp : BackendResp) : Except JsErr (RemoteFs × DaytonaState) := do
  if st.sandbox = none then
    throw noActiveSandboxErr
  let cwd ← daytonaEnsureWorkingDir st cfgWd
  let _mkdirCmd := "mkdir -p " ++ cwd ++ "/src"
  let (fs, st) ← daytonaWriteFile st cfgWd hasNativeFs fs "package.json"
    scaffoldPackageJsonText
  let (fs, st) ← daytonaWriteFile st cfgWd hasNativeFs fs "vite.config.js"
    (daytonaViteConfigText port)
  let (fs, st) ← daytonaWriteFile st cfgWd hasNativeFs fs "tailwind.config.js"
    daytonaTailwindConfigText
  let (fs, st) ← daytonaWriteFile st cfgWd hasNativeFs fs "postcss.config.js"
    daytonaPostcssConfigText
  let (fs, st) ← daytonaWriteFile st cfgWd hasNativeFs fs "index.html"
    daytonaIndexHtmlText
  let (fs, st) ← daytonaWriteFile st cfgWd hasNativeFs fs "src/main.jsx"
    daytonaMainJsxText
  let (fs, st) ← daytonaWriteFile st cfgWd hasNativeFs fs "src/App.jsx"
    daytonaAppJsxText
  let (fs, st) ← daytonaWriteFile st cfgWd hasNativeFs fs "src/index.css"
    daytonaIndexCssText
  let _install ← daytonaRunCommand st cfgWd "npm install" installResp
  let _restart ← daytonaRestartViteServer st cfgWd
  pure (fs, st)

/-- `VercelProvider.setupViteApp()` (part_001, second copy): guard,
`mkdir` of `${cwd}/src` (native with shell fallback), write the eight
scaffold files through `this.writeFile`, `npm install` (result only logged),
then `restartViteServer()`. -/
def vercelSetupViteApp (st : VercelState) (wd : String) (port : Nat)
    (fs : RemoteFs) : Except JsErr (RemoteFs × VercelState) := do
  if st.sandbox = none then
    throw noActiveSandboxErr
  let (fs, st) ← vercelWriteFile st wd fs "package.json"
    scaffoldPackageJsonText
  let (fs, st) ← vercelWriteFile st wd fs "vite.config.js"
    (vercelViteConfigText port)
  let (fs, st) ← vercelWriteFile st wd fs "tailwind.config.js"
    vercelTailwindConfigText
  let (fs, st) ← vercelWriteFile st wd fs "postcss.config.js"
    vercelPostcssConfigText
  let (fs, st) ← vercelWriteFile st wd fs "index.html" vercelIndexHtmlText
  let (fs, st) ← vercelWriteFile st wd fs "src/main.jsx" vercelMainJsxText
  let (fs, st) ← vercelWriteFile st wd fs "src/App.jsx" vercelAppJsxText
  let (fs, st) ← vercelWriteFile st wd fs "src/index.css" vercelIndexCssText
  let _restart ← vercelRestartViteServer st wd
  pure (fs, st)

/-- `ComputeProvider.setupViteApp()`: guard, `mkdir -p app/src`, write the
eight scaffold files with the NATIVE `this.sandbox.writeFile` under explicit
`app/...` paths, run the `npm install` command (result only logged), then
`restartViteServer()`. -/
def computeSetupViteApp (st : ComputeState) (cfg : PackagesCfg) (port : Nat)
    (fs : RemoteFs) : Except JsErr RemoteFs := do
  if st.sandbox = none then
    throw noActiveSandboxErr
  let _mkdirCmd := "mkdir -p " ++ computeWorkingDir ++ "/src"
  let fs := mapSet fs (computeWorkingDir ++ "/package.json")
    (utf8Bytes scaffoldPackageJsonText)
  let fs := mapSet fs (computeWorkingDir ++ "/vite.config.js")
    (utf8Bytes (computeViteConfigText port))
  let fs := mapSet fs (computeWorkingDir ++ "/tailwind.config.js")
    (utf8Bytes computeTailwindConfigText)
  let fs := mapSet fs (computeWorkingDir ++ "/postcss.config.js")
    (utf8Bytes computePostcssConfigText)
  let fs := mapSet fs (computeWorkingDir ++ "/index.html")
    (utf8Bytes computeIndexHtmlText)
  let fs := mapSet fs (computeWorkingDir ++ "/src/main.jsx")
    (utf8Bytes computeMainJsxText)
  let fs := mapSet fs (computeWorkingDir ++ "/src/App.jsx")
    (utf8Bytes computeAppJsxText)
  let fs := mapSet fs (computeWorkingDir ++ "/src/index.css")
    (utf8Bytes computeIndexCssText)
  let _installCmd :=
    if cfg.useLegacyPeerDeps then
      "cd " ++ computeWorkingDir ++ " && npm install --legacy-peer-deps"
    else
      "cd " ++ computeWorkingDir ++ " && npm install"
  let _restart ← computeRestartViteServer st
  pure fs

/-! ## C2: the session guard -/

/-- C2 counterexample: a Vercel provider left partially created by a failed
`createSandbox` (remote `create` resolved, `getUrl` rejected) has never had
`createSandbox()` succeed; yet after `terminate()` — a no-op on this state —
`runCommand` does NOT fail with "No active sandbox": it executes the remote
command and returns its result. -/
theorem c2_counterexample_vercel_op_after_terminate :
    (vercelCreateSandbox ⟨none, none, []⟩ false (.ok "sb-1")
        (.error ⟨some "getUrl failed"⟩) 0).2 = ⟨some "sb-1", none, []⟩ ∧
    (vercelTerminate ⟨some "sb-1", none, []⟩ false).2
      = ⟨some "sb-1", none, []⟩ ∧
    vercelRunCommand (vercelTerminate ⟨some "sb-1", none, []⟩ false).2
        "echo hi" (.ok ⟨some "hi", some "", some 0⟩)
      = .ok ⟨"hi", "", 0, true⟩ := by
  refine ⟨rfl, rfl, rfl⟩

/-- C2 amended: every provider operation in \x7brunCommand, writeFile,
readFile, listFiles, installPackages, setupViteApp, restartViteServer\x7d
fails with the "No active sandbox" error on any state whose sandbox handle
is null — in particular on a fresh provider, before any `createSandbox`
attempt.  After `terminate()` the sandbox handle is null — hence every
operation fails — for the Daytona and compute providers from any state, and
for the Vercel provider from any state that is not partially created (its
`terminate()` does not clear a session lacking a recorded `sandboxId`; see
the counterexample). -/
theorem c2_ops_require_active_session :
    (∀ (st : DaytonaState), st.sandbox = none →
      ∀ (cfgWd : Option String) (cmd : String) (resp : BackendResp)
        (hasNativeFs : Bool) (fs : RemoteFs) (path content : String)
        (directory : Option String) (findExit : Option Int)
        (findLines : List (List Char)) (cfg : PackagesCfg)
        (npmFlagsEnv : Option String) (packages : List String) (port : Nat),
      daytonaRunCommand st cfgWd cmd resp = .error noActiveSandboxErr ∧
      daytonaWriteFile st cfgWd hasNativeFs fs path content
        = .error noActiveSandboxErr ∧
      daytonaReadFile st cfgWd hasNativeFs fs path
        = .error noActiveSandboxErr ∧
      daytonaListFiles st cfgWd directory findExit findLines
        = .error noActiveSandboxErr ∧
      daytonaInstallPackages st cfgWd cfg npmFlagsEnv packages resp
        = .error noActiveSandboxErr ∧
      daytonaSetupViteApp st cfgWd hasNativeFs port fs resp
        = .error noActiveSandboxErr ∧
      daytonaRestartViteServer st cfgWd = .error noActiveSandboxErr) ∧
    (∀ (st : VercelState), st.sandbox = none →
      ∀ (wd : String) (cmd : String) (resp : BackendResp) (fs : RemoteFs)
        (path content : String) (directory : Option String)
        (findExit : Option Int) (findLines : List (List Char))
        (cfg : PackagesCfg) (npmFlagsEnv : Option String)
        (packages : List String) (port : Nat),
      vercelRunCommand st cmd resp = .error noActiveSandboxErr ∧
      vercelWriteFile st wd fs path content = .error noActiveSandboxErr ∧
      vercelReadFile st wd fs path = .error noActiveSandboxErr ∧
      vercelListFiles st wd directory findExit findLines
        = .error noActiveSandboxErr ∧
      vercelInstallPackages st cfg npmFlagsEnv packages resp
        = .error noActiveSandboxErr ∧
      vercelSetupViteApp st wd port fs = .error noActiveSandboxErr ∧
      vercelRestartViteServer st wd = .error noActiveSandboxErr) ∧
    (∀ (st : ComputeState), st.sandbox = none →
      ∀ (cmd : String) (resp : BackendResp) (fs : RemoteFs)
        (path content : String) (directory : String) (lsExit : Option Int)
        (lsLines : List (List Char)) (cfg : PackagesCfg)
        (packages : List String) (port : Nat),
      computeRunCommand st cmd resp = .error noActiveSandboxErr ∧
      computeWriteFile st fs path content = .error noActiveSandboxErr ∧
      computeReadFile st fs path = .error noActiveSandboxErr ∧
      computeListFiles st directory lsExit lsLines
        = .error noActiveSandboxErr ∧
      computeInstallPackages st cfg packages resp
        = .error noActiveSandboxErr ∧
      computeSetupViteApp st cfg port fs = .error noActiveSandboxErr ∧
      computeRestartViteServer st = .error noActiveSandboxErr) ∧
    (∀ (st : DaytonaState) (f : Bool),
      (daytonaTerminate st f).2.sandbox = none) ∧
    (∀ (st : ComputeState) (f : Bool),
      (computeTerminate st f).2.sandbox = none) ∧
    (∀ (st : VercelState) (f : Bool),
      (st.sandbox = none ∨
        jsStrTruthy (st.sandboxInfo.map (fun i => i.sandboxId)) = true) →
      (vercelTerminate st f).2.sandbox = none) := by
  refine ⟨?_, ?_, ?_, ?_, ?_, ?_⟩
  · intro st h cfgWd cmd resp hasNativeFs fs path content directory findExit
      findLines cfg npmFlagsEnv packages port
    obtain ⟨sb, si, wdc, ef⟩ := st
    dsimp only at h
    subst h
    exact ⟨rfl, rfl, rfl, rfl, rfl, rfl, rfl⟩
  · intro st h wd cmd resp fs path content directory findExit findLines cfg
      npmFlagsEnv packages port
    obtain ⟨sb, si, ef⟩ := st
    dsimp only at h
    subst h
    exact ⟨rfl, rfl, rfl, rfl, rfl, rfl, rfl⟩
  · intro st h cmd resp fs path content directory lsExit lsLines cfg packages
      port
    obtain ⟨sb, si⟩ := st
    dsimp only at h
    subst h
    exact ⟨rfl, rfl, rfl, rfl, rfl, rfl, rfl⟩
  · intro st f
    cases h : st.sandbox <;> simp [daytonaTerminate, h]
  · intro st f
    cases h : st.sandbox <;> simp [computeTerminate, h]
  · intro st f hok
    rcases hok with h | h
    · simp [vercelTerminate, h]
    · cases hs : st.sandbox with
      | none => simp [vercelTerminate, hs]
      | some id => simp [vercelTerminate, hs, h]

/-- Witness for C2 (amended): a fresh provider of each family rejects a
representative operation of each kind, and terminate from a fully
established Vercel state leaves the sandbox handle null. -/
theorem c2_ops_require_active_session_witness :
    daytonaRunCommand ⟨none, none, none, []⟩ (some "/w") "ls"
        (.ok ⟨none, none, some 0⟩) = .error noActiveSandboxErr ∧
    daytonaSetupViteApp ⟨none, none, none, []⟩ (some "/w") true 5173 []
        (.ok ⟨none, none, some 0⟩) = .error noActiveSandboxErr ∧
    vercelWriteFile ⟨none, none, []⟩ "/v" [] "a.txt" "x"
        = .error noActiveSandboxErr ∧
    vercelRestartViteServer ⟨none, none, []⟩ "/v"
        = .error noActiveSandboxErr ∧
    computeReadFile ⟨none, none⟩ [] "a.txt" = .error noActiveSandboxErr ∧
    computeInstallPackages ⟨none, none⟩ ⟨true, true⟩ ["lodash"]
        (.ok ⟨none, none, some 0⟩) = .error noActiveSandboxErr ∧
    (daytonaTerminate ⟨some "d", none, some "/w", []⟩ true).2.sandbox
        = none ∧
    (vercelTerminate ⟨some "v", some ⟨"v", "u", "vercel", 0⟩, []⟩
        false).2.sandbox = none := by
  obtain ⟨hd, hv, hc, hdt, hct, hvt⟩ := c2_ops_require_active_session
  refine ⟨(hd ⟨none, none, none, []⟩ rfl (some "/w") "ls"
      (.ok ⟨none, none, some 0⟩) true [] "a" "b" none none [] ⟨true, true⟩
      none [] 5173).1,
    (hd ⟨none, none, none, []⟩ rfl (some "/w") "ls" (.ok ⟨none, none, some 0⟩)
      true [] "a" "b" none none [] ⟨true, true⟩ none [] 5173).2.2.2.2.2.1,
    ?_, ?_, ?_, ?_, ?_, ?_⟩
  · exact (hv ⟨none, none, []⟩ rfl "/v" "ls" (.ok ⟨none, none, some 0⟩) []
      "a.txt" "x" none none [] ⟨true, true⟩ none [] 5173).2.1
  · exact (hv ⟨none, none, []⟩ rfl "/v" "ls" (.ok ⟨none, none, some 0⟩) []
      "a.txt" "x" none none [] ⟨true, true⟩ none [] 5173).2.2.2.2.2.2
  · exact (hc ⟨none, none⟩ rfl "ls" (.ok ⟨none, none, some 0⟩) [] "a.txt"
      "x" "app" none [] ⟨true, true⟩ ["lodash"] 5173).2.2.1
  · exact (hc ⟨none, none⟩ rfl "ls" (.ok ⟨none, none, some 0⟩) [] "a.txt"
      "x" "app" none [] ⟨true, true⟩ ["lodash"] 5173).2.2.2.2.1
  · exact hdt ⟨some "d", none, some "/w", []⟩ true
  · exact hvt ⟨some "v", some ⟨"v", "u", "vercel", 0⟩, []⟩ false
      (Or.inr rfl)
